import Mathlib

/-!
Order composition and fulfillment lifecycle

Shallow embedding of the order-draft logic of `src/pages/Orders/CreateOrder.js`
together with the `useApiCall` hook of `src/hooks/useApi.js` it runs its remote
calls through, of the status-driven views of `OrderDetails.js`, `OrdersList.js`,
`TaskDetails.js` and `PickingTasksList.js`, of the dashboard metrics, recent orders and
polling effect of `Dashboard.js`, of the `useApi` hook, of the filter and sort logic of
the three list pages, and of `isLowStock` and `generateSKU` of
`src/utils/formatters.js`.

Modelling conventions:

* React state of the component is an explicit record (`State`); every handler is
  a function from the state it closes over to the next state and the list of
  observable effects (requests, toasts, navigation) it produced, in order.
* A handler is run to completion: the awaited remote call is resolved by a
  `Remote` value that fixes how the service answers at that moment.
* JavaScript numbers holding quantities are integers (`parseInt(..) || 1` in the
  inputs, integers from the service); they are modelled by `Int`, i.e. inside the
  range where double arithmetic on integers is exact.
* Statuses are the raw strings the service sends, so every view function is defined
  on all strings, not only on the known status names.
* The progress width of the timeline is computed in doubles: a double is a mantissa
  and an exponent, and `/` and `*` round to nearest, ties to even, on 53 bits.
* Creation dates are the numbers `new Date(..)` yields for valid date texts, ids are
  natural numbers; so every sort value is a proper number or a text. A text is compared
  as its sequence of UTF-16 code units, and the built-in `toLowerCase` is a parameter.
* The built-in sort is an insertion sort on the sign of the comparator (`jsSort`);
  where only its being a permutation matters, the sort is a parameter.
* A settled promise, the setter calls of `useApi` and the life-cycle events of the
  dashboard are explicit data, so hooks and effects are functions on them.
-/

namespace Wms

/-! ## Data model -/

/-- Catalog product as delivered by `GET /api/products`. -/
structure Product where
  id : Nat
  sku : String
  name : String
  locationCode : String
  quantityInStock : Int
deriving DecidableEq, Repr

/-- One line of the client-local draft (`orderItems` in `CreateOrder`). -/
structure OrderItem where
  productSku : String
  productName : String
  availableStock : Int
  quantity : Int
deriving DecidableEq, Repr

/-- One element of `orderLineItems` in the create-order payload. -/
structure LineItemPayload where
  productSku : String
  quantity : Int
deriving DecidableEq, Repr

/-- Body of `POST /api/orders`. -/
structure OrderData where
  orderLineItems : List LineItemPayload
deriving DecidableEq, Repr

/-- Line item of an order as stored by the service. -/
structure OrderLine where
  id : Nat
  productSku : String
  quantity : Int
deriving DecidableEq, Repr

/-- Order as returned by the service; `status` is the raw status string. -/
structure Order where
  id : Nat
  status : String
  createdAt : Int
  orderLineItems : List OrderLine
deriving DecidableEq, Repr

/-- A value thrown by a remote call or a callback: `message` is `err.message`,
`responseMessage` is `err.response?.data?.message`. -/
structure ApiError where
  message : String
  responseMessage : Option String
deriving DecidableEq, Repr

/-- Requests of `src/services/api.js` that the order composer issues. -/
inductive Request where
  /-- The call `GET /api/products/SKU/stock/QUANTITY`. -/
  | checkStock (sku : String) (quantity : Int)
  /-- The call `POST /api/orders` with its body. -/
  | createOrder (data : OrderData)
deriving DecidableEq, Repr

/-- Observable effects of a handler, in the order they happen. -/
inductive Effect where
  | request (r : Request)
  | toastSuccess (msg : String)
  | toastError (msg : String)
  | navigate (path : String)
deriving DecidableEq, Repr

/-- How the remote service answers at one moment. -/
structure Remote where
  checkStock : String → Int → Except ApiError Unit
  createOrder : OrderData → Except ApiError Order

/-! ## `useApiCall` (src/hooks/useApi.js, lines 46-93) -/

/-- State held by one `useApiCall` hook. -/
structure ApiCallState where
  loading : Bool
  error : Option ApiError
deriving DecidableEq, Repr

/-- The `options` argument of `execute`, with the defaults of the destructuring. -/
structure ExecOptions (α : Type) where
  onSuccess : Option (α → List Effect × Except ApiError Unit) := none
  onError : Option (ApiError → List Effect × Except ApiError Unit) := none
  successMessage : Option String := none
  errorMessage : String := "An error occurred"
  showSuccessToast : Bool := true
  showErrorToast : Bool := true

/-- Outcome of one `execute` run: hook state after `finally`, the value it
resolves with or the error it rejects with, and the effects it produced. -/
structure ExecResult (α : Type) where
  state : ApiCallState
  result : Except ApiError α
  effects : List Effect

/-- JavaScript truthiness of an optional string: `undefined` and `""` are falsy. -/
def truthyString : Option String → Option String
  | some m => if m = "" then none else some m
  | none => none

/-- The `catch` block of `execute` followed by `finally`. -/
def executeCatch {α : Type} (opts : ExecOptions α) (before : List Effect) (err : ApiError) :
    ExecResult α :=
  match opts.onError with
  | some cb =>
    match cb err with
    | (fx, .ok _) =>
      let toast :=
        if opts.showErrorToast then
          [Effect.toastError ((truthyString err.responseMessage).getD opts.errorMessage)]
        else []
      ⟨⟨false, some err⟩, .error err, before ++ fx ++ toast⟩
    | (fx, .error err2) => ⟨⟨false, some err⟩, .error err2, before ++ fx⟩
  | none =>
    let toast :=
      if opts.showErrorToast then
        [Effect.toastError ((truthyString err.responseMessage).getD opts.errorMessage)]
      else []
    ⟨⟨false, some err⟩, .error err, before ++ toast⟩

/-- The function `execute` of `useApiCall`: `apiCall` is the outcome of running
the thunk (the requests it issued and the response data or the thrown error). -/
def execute {α : Type} (apiCall : List Effect × Except ApiError α) (opts : ExecOptions α) :
    ExecResult α :=
  match apiCall with
  | (fx, .ok data) =>
    let cb : List Effect × Except ApiError Unit :=
      match opts.onSuccess with
      | some f => f data
      | none => ([], .ok ())
    match cb with
    | (cfx, .ok _) =>
      let toast :=
        match (if opts.showSuccessToast then truthyString opts.successMessage else none) with
        | some m => [Effect.toastSuccess m]
        | none => []
      ⟨⟨false, none⟩, .ok data, fx ++ cfx ++ toast⟩
    | (cfx, .error err) => executeCatch opts (fx ++ cfx) err
  | (fx, .error err) => executeCatch opts fx err

/-- The thunk `() => apiService.products.checkStock(sku, quantity)`. -/
def checkStockCall (remote : Remote) (sku : String) (quantity : Int) :
    List Effect × Except ApiError Unit :=
  ([Effect.request (Request.checkStock sku quantity)], remote.checkStock sku quantity)

/-- The thunk `() => apiService.orders.create(orderData)`. -/
def createOrderCall (remote : Remote) (data : OrderData) :
    List Effect × Except ApiError Order :=
  ([Effect.request (Request.createOrder data)], remote.createOrder data)

/-! ## `CreateOrder` component state and handlers -/

/-- React state of `CreateOrder` (lines 12-20), with the two hook states. -/
structure State where
  currentStep : Nat
  orderItems : List OrderItem
  searchTerm : String
  selectedProduct : Option Product
  quantity : Int
  createCall : ApiCallState
  stockCall : ApiCallState
deriving DecidableEq, Repr

/-- State on mount: the `useState` defaults. -/
def State.init : State :=
  ⟨1, [], "", none, 1, ⟨false, none⟩, ⟨false, none⟩⟩

/-- Options both stock checks pass to `execute`. -/
def quietOptions : ExecOptions Unit :=
  { showSuccessToast := false, showErrorToast := false }

/-- The `orderItems.map` of lines 55-59 and 105-109: replace the quantity of the
lines with the given SKU. -/
def setLineQuantity (sku : String) (q : Int) (items : List OrderItem) : List OrderItem :=
  items.map (fun item => if item.productSku == sku then { item with quantity := q } else item)

/-- Handler `addProductToOrder` (lines 28-80). -/
def addProductToOrder (remote : Remote) (s : State) : State × List Effect :=
  match s.selectedProduct with
  | none => (s, [Effect.toastError "Please select a product"])
  | some p =>
    if s.quantity ≤ 0 then
      (s, [Effect.toastError "Quantity must be greater than 0"])
    else
      let existingItem := s.orderItems.find? (fun item => item.productSku == p.sku)
      let totalQuantity :=
        match existingItem with
        | some e => e.quantity + s.quantity
        | none => s.quantity
      let r := execute (checkStockCall remote p.sku totalQuantity) quietOptions
      match r.result with
      | .ok _ =>
        match existingItem with
        | some _ =>
          ({ s with
              orderItems := setLineQuantity p.sku totalQuantity s.orderItems
              selectedProduct := none
              quantity := 1
              searchTerm := ""
              stockCall := r.state },
            r.effects ++ [Effect.toastSuccess
              ("Updated " ++ p.name ++ " quantity to " ++ toString totalQuantity)])
        | none =>
          let newItem : OrderItem :=
            { productSku := p.sku
              productName := p.name
              availableStock := p.quantityInStock
              quantity := s.quantity }
          ({ s with
              orderItems := s.orderItems ++ [newItem]
              selectedProduct := none
              quantity := 1
              searchTerm := ""
              stockCall := r.state },
            r.effects ++ [Effect.toastSuccess ("Added " ++ p.name ++ " to order")])
      | .error _ =>
        ({ s with stockCall := r.state },
          r.effects ++ [Effect.toastError
            ("Insufficient stock. Only " ++ toString p.quantityInStock ++ " available.")])

/-- The total `addProductToOrder` asks the service about (lines 40-41). -/
def requestedTotal (s : State) (p : Product) : Int :=
  match s.orderItems.find? (fun item => item.productSku == p.sku) with
  | some e => e.quantity + s.quantity
  | none => s.quantity

/-- Handler `removeItemFromOrder` (lines 82-85). -/
def removeItemFromOrder (productSku : String) (s : State) : State × List Effect :=
  ({ s with orderItems := s.orderItems.filter (fun item => item.productSku != productSku) },
    [Effect.toastSuccess "Item removed from order"])

/-- Handler `updateItemQuantity` (lines 87-113). -/
def updateItemQuantity (remote : Remote) (productSku : String) (newQuantity : Int) (s : State) :
    State × List Effect :=
  if newQuantity ≤ 0 then
    removeItemFromOrder productSku s
  else
    match s.orderItems.find? (fun item => item.productSku == productSku) with
    | none => (s, [])
    | some item =>
      let r := execute (checkStockCall remote productSku newQuantity) quietOptions
      match r.result with
      | .ok _ =>
        ({ s with
            orderItems := setLineQuantity productSku newQuantity s.orderItems
            stockCall := r.state },
          r.effects)
      | .error _ =>
        ({ s with stockCall := r.state },
          r.effects ++ [Effect.toastError
            ("Insufficient stock. Only " ++ toString item.availableStock ++ " available.")])

/-- The payload built at lines 122-127. -/
def orderDataOf (items : List OrderItem) : OrderData :=
  { orderLineItems := items.map (fun item =>
      { productSku := item.productSku, quantity := item.quantity }) }

/-- Options `handleCreateOrder` passes to `execute` (lines 131-134). -/
def createOptions : ExecOptions Order :=
  { successMessage := some "Order created successfully"
    onSuccess := some (fun order =>
      ([Effect.navigate ("/orders/" ++ toString order.id)], .ok ())) }

/-- Handler `handleCreateOrder` (lines 115-139); the surrounding `try/catch`
swallows the rejection of `execute`. -/
def handleCreateOrder (remote : Remote) (s : State) : State × List Effect :=
  if s.orderItems.length = 0 then
    (s, [Effect.toastError "Please add at least one item to the order"])
  else
    let r := execute (createOrderCall remote (orderDataOf s.orderItems)) createOptions
    ({ s with createCall := r.state }, r.effects)

/-! ## Observations on effect traces -/

/-- The requests of a trace, in order. -/
def requests : List Effect → List Request
  | [] => []
  | Effect.request r :: rest => r :: requests rest
  | _ :: rest => requests rest

/-- The stock checks of a trace, in order, as `(sku, quantity)` pairs. -/
def stockChecks : List Effect → List (String × Int)
  | [] => []
  | Effect.request (Request.checkStock sku q) :: rest => (sku, q) :: stockChecks rest
  | _ :: rest => stockChecks rest

/-- The bodies of the create-order requests of a trace, in order. -/
def createPayloads : List Effect → List OrderData
  | [] => []
  | Effect.request (Request.createOrder d) :: rest => d :: createPayloads rest
  | _ :: rest => createPayloads rest

/-- Number of draft lines carrying the SKU. -/
def lineCount (sku : String) (items : List OrderItem) : Nat :=
  (items.filter (fun item => item.productSku == sku)).length

/-! ## User actions and runs of the component -/

/-- What the user (or the page) can do between renders. The setters take any
value, which over-approximates the inputs of the page. -/
inductive Action where
  | setSelectedProduct (p : Option Product)
  | setQuantity (q : Int)
  | setSearchTerm (t : String)
  | setCurrentStep (n : Nat)
  | addProductToOrder
  | removeItemFromOrder (sku : String)
  | updateItemQuantity (sku : String) (newQuantity : Int)
  | handleCreateOrder

/-- One action run to completion against the given answers of the service. -/
def step (remote : Remote) (a : Action) (s : State) : State × List Effect :=
  match a with
  | .setSelectedProduct p => ({ s with selectedProduct := p }, [])
  | .setQuantity q => ({ s with quantity := q }, [])
  | .setSearchTerm t => ({ s with searchTerm := t }, [])
  | .setCurrentStep n => ({ s with currentStep := n }, [])
  | .addProductToOrder => addProductToOrder remote s
  | .removeItemFromOrder sku => removeItemFromOrder sku s
  | .updateItemQuantity sku n => updateItemQuantity remote sku n s
  | .handleCreateOrder => handleCreateOrder remote s

/-- A sequence of actions, each with the answers the service gives during it. -/
def run : List (Remote × Action) → State → State
  | [], s => s
  | (remote, a) :: rest, s => run rest (step remote a s).1

/-- Draft well-formedness: SKUs are unique keys and quantities are positive. -/
def WellFormed (items : List OrderItem) : Prop :=
  (items.map (fun item => item.productSku)).Nodup ∧ ∀ item ∈ items, 0 < item.quantity

/-! ## Order status views (src/pages/Orders/OrderDetails.js, OrdersList.js) -/

/-- Picking task as returned by the service; `status` is the raw status string. -/
structure PickingTask where
  id : Nat
  orderId : Nat
  status : String
  createdAt : Int
deriving DecidableEq, Repr

/-- The method `Array.prototype.indexOf` on an array of strings: the first position of
`s`, counting from `start`, or -1 when `s` does not occur. -/
def indexOfFrom (s : String) : List String → Int → Int
  | [], _ => -1
  | x :: rest, start => if x == s then start else indexOfFrom s rest (start + 1)

/-- Icon of a timeline step: `FiX`, `FiCheck` or `FiClock`. -/
inductive StepIcon where
  | x
  | check
  | clock
deriving DecidableEq, Repr

/-- Colour class of a timeline step: red marks a cancelled step, green a done step,
blue the current step and gray a pending step. -/
inductive StepColor where
  | red
  | green
  | blue
  | gray
deriving DecidableEq, Repr

/-! ## IEEE doubles of the progress width -/

/-- A finite double: the integer `mant` times two to the power `expo`. -/
structure Dbl where
  mant : Int
  expo : Int
deriving DecidableEq, Repr

/-- The number a double stands for. -/
def Dbl.value (d : Dbl) : ℚ := (d.mant : ℚ) * (2 : ℚ) ^ d.expo

/-- Numerator and denominator of `num / den` times two to the power `52 - e`. -/
def scaleTo (num den : Nat) (e : Int) : Nat × Nat :=
  if e ≤ 52 then (num * 2 ^ (52 - e).toNat, den) else (num, den * 2 ^ (e - 52).toNat)

/-- Halving count: with enough `fuel`, the position of the highest set bit of `n`. -/
def highBitFuel : Nat → Nat → Nat
  | 0, _ => 0
  | fuel + 1, n => if 2 ≤ n then highBitFuel fuel (n / 2) + 1 else 0

/-- Position of the highest set bit of `n`, that is the floor of its binary logarithm. -/
def highBit (n : Nat) : Nat := highBitFuel n n

/-- Rounding of the positive quotient `num / den` to the 53 significant bits of a
double, to nearest with ties to even: the mantissa and the exponent of its last bit. The
binade `e` is the one with `2^e <= num / den < 2^(e+1)`. Overflow and underflow are not
handled; the quotients met here lie between 1/4 and 128. -/
def roundRatio (num den : Nat) : Nat × Int :=
  if num = 0 ∨ den = 0 then (0, 0)
  else
    let e0 : Int := (highBit num : Int) - (highBit den : Int)
    let e : Int := if 2 ^ 52 ≤ (scaleTo num den e0).1 / (scaleTo num den e0).2 then e0 else e0 - 1
    let n := (scaleTo num den e).1
    let d := (scaleTo num den e).2
    let q := n / d
    let r := n % d
    let m := if 2 * r < d then q else if d < 2 * r then q + 1 else if q % 2 = 0 then q else q + 1
    (m, e - 52)

/-- The double nearest to plus or minus `num / den` times two to the power `shift`. -/
def Dbl.round (negative : Bool) (num den : Nat) (shift : Int) : Dbl :=
  let r := roundRatio num den
  ⟨if negative then -(r.1 : Int) else (r.1 : Int), r.2 + shift⟩

/-- An integer below `2^53` in size as a double. -/
def Dbl.ofInt (n : Int) : Dbl := ⟨n, 0⟩

/-- The operator `/` on two doubles with a non-zero divisor. -/
def Dbl.div (a b : Dbl) : Dbl :=
  Dbl.round (xor (decide (a.mant < 0)) (decide (b.mant < 0))) a.mant.natAbs b.mant.natAbs
    (a.expo - b.expo)

/-- The operator `*` on two doubles. -/
def Dbl.mul (a b : Dbl) : Dbl :=
  Dbl.round (xor (decide (a.mant < 0)) (decide (b.mant < 0))) (a.mant.natAbs * b.mant.natAbs) 1
    (a.expo + b.expo)

namespace OrderDetails

/-- The constant `statusFlow` (line 42). -/
def statusFlow : List String := ["NEW", "ALLOCATED", "PICKING", "COMPLETED"]

/-- The constant `currentStatusIndex` (line 43). -/
def currentStatusIndex (order : Order) : Int := indexOfFrom order.status statusFlow 0

/-- The constant `isCancelled` (line 44). -/
def isCancelled (order : Order) : Bool := order.status == "CANCELLED"

/-- The function `getStatusIcon` (lines 46-54); its first parameter is not used. -/
def getStatusIcon (order : Order) (_status : String) (index : Nat) : StepIcon :=
  if isCancelled order && decide (index > 0) then StepIcon.x
  else if decide ((index : Int) < currentStatusIndex order) ||
      (decide ((index : Int) = currentStatusIndex order) && !isCancelled order) then
    StepIcon.check
  else StepIcon.clock

/-- The function `getStatusColor` (lines 56-67); its first parameter is not used. -/
def getStatusColor (order : Order) (_status : String) (index : Nat) : StepColor :=
  if isCancelled order && decide (index > 0) then StepColor.red
  else if decide ((index : Int) < currentStatusIndex order) ||
      (decide ((index : Int) = currentStatusIndex order) && !isCancelled order) then
    StepColor.green
  else if (index : Int) = currentStatusIndex order then StepColor.blue
  else StepColor.gray

/-- The constant `canCancel` (line 69), which guards the cancel button (line 87). -/
def canCancel (order : Order) : Bool :=
  order.status == "NEW" || order.status == "ALLOCATED"

/-- The rendered timeline (`statusFlow.map`, lines 118-132): colour and icon of every
step, in order. -/
def timeline (order : Order) : List (StepColor × StepIcon) :=
  statusFlow.enum.map (fun step =>
    (getStatusColor order step.2 step.1, getStatusIcon order step.2 step.1))

/-- Width of the progress line in percent (lines 141-143): the text `0%` for a cancelled
order, else the double `(currentStatusIndex / (statusFlow.length - 1)) * 100`. -/
def progressWidth (order : Order) : Dbl :=
  if isCancelled order then Dbl.ofInt 0
  else
    Dbl.mul
      (Dbl.div (Dbl.ofInt (currentStatusIndex order)) (Dbl.ofInt ((statusFlow.length : Int) - 1)))
      (Dbl.ofInt 100)

end OrderDetails

namespace OrdersList

/-- Guard of the cancel button of a row (OrdersList.js line 222). -/
def cancelOffered (order : Order) : Bool :=
  order.status == "NEW" || order.status == "ALLOCATED"

end OrdersList

/-! ## Picking task views (src/pages/PickingTasks/TaskDetails.js, PickingTasksList.js) -/

/-- Status cell of a line item in the task detail view. -/
inductive PickStatus where
  | picked
  | pending
deriving DecidableEq, Repr

namespace TaskDetails

/-- The constant `canComplete` (line 54), which guards the complete button (line 72). -/
def canComplete (task : PickingTask) : Bool := task.status == "IN_PROGRESS"

/-- Status cell of one row of the items table (lines 195-207). -/
def lineItemStatus (task : PickingTask) (_item : OrderLine) : PickStatus :=
  if task.status == "DONE" then PickStatus.picked else PickStatus.pending

/-- The rows of the items table (`order.orderLineItems.map`, lines 187-209): SKU,
quantity to pick and status cell. -/
def itemRows (task : PickingTask) (order : Order) : List (String × Int × PickStatus) :=
  order.orderLineItems.map (fun item => (item.productSku, item.quantity, lineItemStatus task item))

end TaskDetails

namespace PickingTasksList

/-- Guard of the complete button of a row (PickingTasksList.js line 201). -/
def completeOffered (task : PickingTask) : Bool := task.status == "IN_PROGRESS"

end PickingTasksList

/-! ## Dashboard metrics (src/utils/formatters.js, src/pages/Dashboard/Dashboard.js) -/

/-- The function `isLowStock` of `formatters.js` (lines 70-72), threshold explicit. -/
def isLowStockAt (quantity : Int) (threshold : Int) : Bool := decide (quantity < threshold)

/-- The function `isLowStock` called with one argument: the default threshold is 10. -/
def isLowStock (quantity : Int) : Bool := isLowStockAt quantity 10

/-- The expression `n || 0` on an optional count: `undefined` and 0 give 0. -/
def orZero : Option Nat → Nat
  | some n => if n = 0 then 0 else n
  | none => 0

namespace Dashboard

/-- The metric `totalProducts` (line 29). -/
def totalProducts (products : Option (List Product)) : Nat :=
  orZero (products.map (fun ps => ps.length))

/-- The metric `lowStockProducts` (line 30). -/
def lowStockProducts (products : Option (List Product)) : Nat :=
  orZero (products.map (fun ps => (ps.filter (fun product =>
    isLowStock product.quantityInStock)).length))

/-- The metric `activeOrders` (line 31). -/
def activeOrders (orders : Option (List Order)) : Nat :=
  orZero (orders.map (fun os => (os.filter (fun order =>
    ["NEW", "ALLOCATED", "PICKING"].contains order.status)).length))

/-- The metric `pendingTasks` (line 32). -/
def pendingTasks (pickingTasks : Option (List PickingTask)) : Nat :=
  orZero (pickingTasks.map (fun ts => (ts.filter (fun task =>
    task.status == "IN_PROGRESS")).length))

end Dashboard

/-- An order with the given status and nothing else of interest. -/
def orderWithStatus (status : String) : Order := ⟨1, status, 0, []⟩

/-! ## Sorting and list views (Dashboard.js, OrdersList.js, ProductsList.js, PickingTasksList.js) -/

/-- The built-in `Array.prototype.sort` with a comparator, embedded as the stable
insertion sort that puts `a` before `b` when `cmp a b <= 0`. For a consistent comparator
this is the result every conforming engine gives; for any comparator it is a permutation
of the input. -/
def jsSort {α : Type} (cmp : α → α → Int) (xs : List α) : List α :=
  xs.insertionSort (fun a b => cmp a b ≤ 0)

namespace Dashboard

/-- The comparator of `recentOrders` (line 35): `new Date(b.createdAt) - new Date(a.createdAt)`. -/
def newestFirst (a b : Order) : Int := b.createdAt - a.createdAt

/-- The list `recentOrders` (line 35). -/
def recentOrders (orders : Option (List Order)) : List Order :=
  match orders with
  | some os => (jsSort newestFirst os).take 5
  | none => []

end Dashboard

/-- The UTF-16 code units of a character: one unit below U+10000, else the high and the
low surrogate. -/
def utf16Char (c : Char) : List Nat :=
  if c.toNat < 65536 then [c.toNat]
  else [55296 + (c.toNat - 65536) / 1024, 56320 + (c.toNat - 65536) % 1024]

/-- A text as JavaScript holds it: its sequence of UTF-16 code units. -/
def utf16 (t : String) : List Nat := t.toList.flatMap utf16Char

/-- The comparison `<` of two JavaScript texts: by code unit from the left, a proper
prefix being the smaller one. -/
def unitsLt : List Nat → List Nat → Bool
  | [], [] => false
  | [], _ :: _ => true
  | _ :: _, [] => false
  | a :: as, b :: bs => if a < b then true else if b < a then false else unitsLt as bs

/-- Value a row is sorted by, after the conversions of the comparator: a number (dates
and `parseInt` results) or the code units of a lower-cased text. -/
inductive SortKey where
  | num (n : Int)
  | str (units : List Nat)
deriving DecidableEq, Repr

/-- The comparison `<` on two sort values of the same kind. -/
def SortKey.lt : SortKey → SortKey → Bool
  | .num a, .num b => decide (a < b)
  | .str a, .str b => unitsLt a b
  | _, _ => false

/-- Two sort values of the same kind: both numbers or both texts, as the two values a
comparator derives from one sort field always are. -/
def SortKey.sameKind : SortKey → SortKey → Bool
  | .num _, .num _ => true
  | .str _, .str _ => true
  | _, _ => false

/-- The last statement of the three list comparators (OrdersList.js lines 45-49,
ProductsList.js lines 49-53, PickingTasksList.js lines 42-46). -/
def compareValues (sortOrder : String) (aValue bValue : SortKey) : Int :=
  if sortOrder == "asc" then
    (if SortKey.lt bValue aValue then 1 else -1)
  else
    (if SortKey.lt aValue bValue then 1 else -1)

/-- The expression `value?.toString().toLowerCase() || ''` on an optional text; `lower`
is the built-in `toLowerCase`. -/
def textKey (lower : String → String) : Option String → SortKey
  | some t => SortKey.str (utf16 (lower t))
  | none => SortKey.str []

namespace OrdersList

/-- Text of `order[sortBy]` for the fields that reach the last branch of the
comparator; `none` stands for `undefined`. -/
def fieldText (sortBy : String) (order : Order) : Option String :=
  if sortBy == "status" then some order.status
  else if sortBy == "orderLineItems" then
    some (String.intercalate "," (order.orderLineItems.map (fun _ => "[object Object]")))
  else none

/-- The sort value of an order (lines 31-43). -/
def sortKey (lower : String → String) (sortBy : String) (order : Order) : SortKey :=
  if sortBy == "createdAt" then SortKey.num order.createdAt
  else if sortBy == "id" then SortKey.num (order.id : Int)
  else textKey lower (fieldText sortBy order)

/-- The comparator handed to `filtered.sort` (lines 30-50). -/
def compareOrders (lower : String → String) (sortBy sortOrder : String) (a b : Order) : Int :=
  compareValues sortOrder (sortKey lower sortBy a) (sortKey lower sortBy b)

/-- The memo `filteredOrders` (lines 21-53), for a given implementation of the
built-in sort and of the built-in `toLowerCase`. -/
def filteredOrdersWith (sortFn : (Order → Order → Int) → List Order → List Order)
    (lower : String → String) (orders : Option (List Order))
    (statusFilter sortBy sortOrder : String) : List Order :=
  match orders with
  | none => []
  | some os =>
    sortFn (compareOrders lower sortBy sortOrder)
      (os.filter (fun order => if statusFilter == "ALL" then true else order.status == statusFilter))

/-- The memo `filteredOrders` with the embedded sort. -/
def filteredOrders (lower : String → String) (orders : Option (List Order))
    (statusFilter sortBy sortOrder : String) : List Order :=
  filteredOrdersWith jsSort lower orders statusFilter sortBy sortOrder

/-- The constant `statusOptions` (line 83). -/
def statusOptions : List String :=
  ["ALL", "NEW", "ALLOCATED", "PICKING", "COMPLETED", "CANCELLED"]

/-- The lookup `statusCounts[key]` (lines 84-91); `none` stands for `undefined`. -/
def statusCounts (orders : Option (List Order)) (key : String) : Option Nat :=
  match orders with
  | none => none
  | some os =>
    if key == "ALL" then some os.length
    else if key == "NEW" || key == "ALLOCATED" || key == "PICKING" || key == "COMPLETED" ||
        key == "CANCELLED" then
      some (os.filter (fun o => o.status == key)).length
    else none

end OrdersList

namespace ProductsList

/-- Text of `product[sortBy]` for the fields that reach the last branch of the
comparator; `none` stands for `undefined`. -/
def fieldText (sortBy : String) (product : Product) : Option String :=
  if sortBy == "sku" then some product.sku
  else if sortBy == "name" then some product.name
  else if sortBy == "locationCode" then some product.locationCode
  else if sortBy == "id" then some (toString product.id)
  else none

/-- The sort value of a product (ProductsList.js lines 38-47). -/
def sortKey (lower : String → String) (sortBy : String) (product : Product) : SortKey :=
  if sortBy == "quantityInStock" then SortKey.num product.quantityInStock
  else textKey lower (fieldText sortBy product)

/-- The comparator handed to `filtered.sort` (ProductsList.js lines 37-54). -/
def compareProducts (lower : String → String) (sortBy sortOrder : String) (a b : Product) :
    Int :=
  compareValues sortOrder (sortKey lower sortBy a) (sortKey lower sortBy b)

end ProductsList

namespace PickingTasksList

/-- Text of `task[sortBy]` for the fields that reach the last branch of the comparator;
`none` stands for `undefined`. The creation date is kept as a number in `PickingTask`,
so its text is the decimal rendering of that number. -/
def fieldText (sortBy : String) (task : PickingTask) : Option String :=
  if sortBy == "status" then some task.status
  else if sortBy == "orderId" then some (toString task.orderId)
  else if sortBy == "createdAt" then some (toString task.createdAt)
  else none

/-- The sort value of a task (PickingTasksList.js lines 31-40). -/
def sortKey (lower : String → String) (sortBy : String) (task : PickingTask) : SortKey :=
  if sortBy == "id" then SortKey.num (task.id : Int)
  else textKey lower (fieldText sortBy task)

/-- The comparator handed to `filtered.sort` (PickingTasksList.js lines 30-47). -/
def compareTasks (lower : String → String) (sortBy sortOrder : String) (a b : PickingTask) :
    Int :=
  compareValues sortOrder (sortKey lower sortBy a) (sortKey lower sortBy b)

end PickingTasksList

/-! ## `useApi` (src/hooks/useApi.js, lines 4-44) -/

/-- State held by one `useApi` hook; `none` in `data` and `error` stands for `null`. -/
structure ApiState (α : Type) where
  data : Option α
  loading : Bool
  error : Option ApiError
deriving DecidableEq, Repr

/-- The `useState` defaults of `useApi` (lines 5-7). -/
def ApiState.init {α : Type} : ApiState α := ⟨none, true, none⟩

/-- A response object; its `data` may be `null`. -/
structure Response (α : Type) where
  data : Option α
deriving DecidableEq, Repr

/-- How the promise returned by `apiCall()` settles: resolved with a response object or
with `null`, or rejected with an error. -/
inductive Settled (α : Type) where
  | resolved (response : Option (Response α))
  | rejected (err : ApiError)
deriving DecidableEq, Repr

/-- A call of one of the three state setters of `useApi`. -/
inductive Setter (α : Type) where
  | setData (d : Option α)
  | setLoading (b : Bool)
  | setError (e : Option ApiError)
deriving DecidableEq, Repr

/-- Effect of one setter call on the hook state. -/
def applySetter {α : Type} (s : ApiState α) : Setter α → ApiState α
  | .setData d => { s with data := d }
  | .setLoading b => { s with loading := b }
  | .setError e => { s with error := e }

/-- Effect of a sequence of setter calls, in order. -/
def applySetters {α : Type} (s : ApiState α) (calls : List (Setter α)) : ApiState α :=
  calls.foldl applySetter s

/-- The `TypeError` thrown when `.data` is read from `null`. -/
def nullResponseError : ApiError :=
  ⟨"Cannot read properties of null (reading \x27data\x27)", none⟩

/-- The expression `response.data`: it throws when the response is `null`. -/
def readData {α : Type} : Option (Response α) → Except ApiError (Option α)
  | some response => .ok response.data
  | none => .error nullResponseError

/-- What the `try` block yields once the awaited promise has settled (lines 14-15 and
31-33): the data read from the response, or the error that reaches `catch`. -/
def settledData {α : Type} : Settled α → Except ApiError (Option α)
  | .resolved response => readData response
  | .rejected err => .error err

/-- The setter calls made before the `await` (lines 12-13 and 29-30). -/
def fetchStartCalls {α : Type} : List (Setter α) :=
  [Setter.setLoading true, Setter.setError none]

/-- The setter calls made once the promise has settled, `finally` included
(lines 15-21 and 32-40). -/
def fetchSettleCalls {α : Type} (outcome : Settled α) : List (Setter α) :=
  match settledData outcome with
  | .ok d => [Setter.setData d, Setter.setLoading false]
  | .error err => [Setter.setError (some err), Setter.setLoading false]

/-- The hook state while the fetch is in flight. -/
def fetchStart {α : Type} (s : ApiState α) : ApiState α := applySetters s fetchStartCalls

/-- The function `fetchData` of the effect (lines 10-22), run to completion. -/
def fetchData {α : Type} (outcome : Settled α) (s : ApiState α) : ApiState α :=
  applySetters (fetchStart s) (fetchSettleCalls outcome)

/-- The function `refetch` (lines 27-41), run to completion: the hook state and the
value it resolves with or the error it rejects with. -/
def refetch {α : Type} (outcome : Settled α) (s : ApiState α) :
    ApiState α × Except ApiError (Option α) :=
  (applySetters (fetchStart s) (fetchSettleCalls outcome), settledData outcome)

/-- Whether a setter call writes `data`. -/
def Setter.writesData {α : Type} : Setter α → Bool
  | .setData _ => true
  | _ => false

/-- Whether a setter call writes `error`. -/
def Setter.writesError {α : Type} : Setter α → Bool
  | .setError _ => true
  | _ => false

/-- The fetch operation of the order hook of `TaskDetails` (TaskDetails.js lines 20-23):
the order request when the task is loaded, `Promise.resolve(null)` otherwise. -/
def TaskDetails.orderFetch (task : Option PickingTask) (answer : Settled Order) : Settled Order :=
  match task with
  | some _ => answer
  | none => Settled.resolved none

/-! ## The polling effect of the dashboard (Dashboard.js, lines 17-26) -/

/-- One of the three `refetch` functions of the dashboard. -/
inductive Refetch where
  | products
  | orders
  | tasks
deriving DecidableEq, Repr

/-- An interval registered with `setInterval` and not yet cleared. -/
structure IntervalTimer where
  id : Nat
  period : Nat
  callback : List Refetch
deriving DecidableEq, Repr

/-- The dashboard as far as the effect is concerned: whether it is mounted, the live
intervals, the interval id captured by the cleanup function React holds, and the id the
next `setInterval` hands out. -/
structure PollState where
  mounted : Bool
  timers : List IntervalTimer
  cleanup : Option Nat
  nextId : Nat
deriving DecidableEq, Repr

/-- Before the dashboard is mounted. -/
def PollState.init : PollState := ⟨false, [], none, 1⟩

/-- The browser call `setInterval(callback, period)`. -/
def setInterval (callback : List Refetch) (period : Nat) (s : PollState) : Nat × PollState :=
  (s.nextId, { s with timers := s.timers ++ [⟨s.nextId, period, callback⟩], nextId := s.nextId + 1 })

/-- The browser call `clearInterval(id)`. -/
def clearInterval (id : Nat) (s : PollState) : PollState :=
  { s with timers := s.timers.filter (fun t => t.id != id) }

/-- The body of the effect (lines 19-25): start the interval and hand React the cleanup
that clears it. -/
def runEffect (s : PollState) : PollState :=
  let r := setInterval [Refetch.products, Refetch.orders, Refetch.tasks] 30000 s
  { r.2 with cleanup := some r.1 }

/-- React running the cleanup function it holds, if any. -/
def runCleanup (s : PollState) : PollState :=
  match s.cleanup with
  | some interval => { clearInterval interval s with cleanup := none }
  | none => s

/-- Life-cycle events of the dashboard. -/
inductive PollEvent where
  | mount
  | rerender (depsChanged : Bool)
  | unmount
deriving DecidableEq, Repr

/-- React semantics of `useEffect`: run the effect on mount; on a render with changed
dependencies run the cleanup, then the effect; on unmount run the cleanup. -/
def pollStep (s : PollState) : PollEvent → PollState
  | .mount => if s.mounted then s else runEffect { s with mounted := true }
  | .rerender depsChanged => if s.mounted && depsChanged then runEffect (runCleanup s) else s
  | .unmount => if s.mounted then { runCleanup s with mounted := false } else s

/-- The dashboard after a sequence of life-cycle events. -/
def pollRun (events : List PollEvent) : PollState := events.foldl pollStep PollState.init

/-- The refetches a tick of the interval `id` calls; none when it is not live. -/
def tick (id : Nat) (s : PollState) : List Refetch :=
  match s.timers.find? (fun t => t.id == id) with
  | some t => t.callback
  | none => []

/-- What holds of the dashboard between events: unmounted with no live interval and no
cleanup pending, or mounted with exactly the one interval the pending cleanup clears. -/
def PollInv (s : PollState) : Prop :=
  (s.mounted = false ∧ s.cleanup = none ∧ s.timers = []) ∨
  (s.mounted = true ∧ ∃ i : Nat, s.cleanup = some i ∧ i < s.nextId ∧
    s.timers = [⟨i, 30000, [Refetch.products, Refetch.orders, Refetch.tasks]⟩])

/-! ## `generateSKU` (src/utils/formatters.js, lines 50-68) -/

/-- The class `\s` of a JavaScript regular expression. -/
def isRegexSpace (c : Char) : Bool :=
  let n := c.toNat
  n == 9 || n == 10 || n == 11 || n == 12 || n == 13 || n == 32 || n == 160 || n == 5760 ||
    (8192 ≤ n && n ≤ 8202) || n == 8232 || n == 8233 || n == 8239 || n == 8287 ||
    n == 12288 || n == 65279

/-- The class `[a-zA-Z0-9\s]`: the characters `name.replace` keeps (line 53). -/
def keptByCleaning (c : Char) : Bool :=
  let n := c.toNat
  (97 ≤ n && n ≤ 122) || (65 ≤ n && n ≤ 90) || (48 ≤ n && n ≤ 57) || isRegexSpace c

/-- The call `cleaned.split` with the one-space separator: cut at every space character. -/
def splitOnSpace : List Char → List (List Char)
  | [] => [[]]
  | c :: rest =>
    if c.toNat == 32 then [] :: splitOnSpace rest
    else
      match splitOnSpace rest with
      | w :: ws => (c :: w) :: ws
      | [] => [[c]]

/-- The method `toUpperCase` on cleaned text: the letters a-z are raised, digits and
white space are left alone. -/
def upperChar (c : Char) : Char :=
  if 97 ≤ c.toNat ∧ c.toNat ≤ 122 then Char.ofNat (c.toNat - 32) else c

/-- The call `text.padStart` with length 3 and the digit zero as filler. -/
def padStart3 (text : List Char) : List Char :=
  List.replicate (3 - text.length) (Char.ofNat 48) ++ text

/-- The function `generateSKU`; `draw` is `Math.floor(Math.random() * 1000)`. -/
def generateSKU (name : String) (draw : Nat) : String :=
  if name = "" then ""
  else
    let cleaned := name.toList.filter keptByCleaning
    let words := (splitOnSpace cleaned).filter (fun word => decide (word.length > 0))
    if words.length = 0 then ""
    else
      let sku : List Char :=
        if words.length = 1 then ((words.headD []).take 6).map upperChar
        else (words.map (fun word => word.take 2)).flatten.map upperChar
      let randomNum := padStart3 (toString draw).toList
      String.mk (sku ++ randomNum)

/-- The pattern `/^[A-Z0-9]+$/` of the SKU field (AddProduct.js line 144,
EditProduct.js line 161). -/
def matchesSkuPattern (sku : String) : Bool :=
  !sku.toList.isEmpty &&
    sku.toList.all (fun c => (65 ≤ c.toNat && c.toNat ≤ 90) || (48 ≤ c.toNat && c.toNat ≤ 57))

/-! ## Sample data used by the concrete scenarios -/

/-- Product ABC with a stock figure of 5. -/
def sampleAbc : Product := ⟨1, "ABC", "Widget", "A-01", 5⟩

/-- A service that passes a stock check exactly when at most `limit` units are asked
for, and refuses every order creation. -/
def stockUpTo (limit : Int) : Remote :=
  ⟨fun _ q => if q ≤ limit then .ok () else .error ⟨"Request failed", none⟩,
    fun _ => .error ⟨"Request failed", none⟩⟩

/-- The component with a draft, a selected product and a quantity, everything else as
on mount. -/
def composing (items : List OrderItem) (sel : Option Product) (q : Int) : State :=
  ⟨1, items, "", sel, q, ⟨false, none⟩, ⟨false, none⟩⟩

/-- A stand-in for the built-in `toLowerCase` in the concrete scenarios: it lowers the
letters A-Z and the letter E with acute accent (U+00C9 to U+00E9) and leaves every other
character alone. -/
def sampleLower (t : String) : String :=
  String.mk (t.toList.map (fun c => if c.toNat = 201 then Char.ofNat 233 else c.toLower))

/-- Options whose success callback throws after navigating, with the default toasts. -/
def throwingOptions : ExecOptions Order :=
  { successMessage := some "Order created successfully"
    onSuccess := some (fun order =>
      ([Effect.navigate ("/orders/" ++ toString order.id)],
        .error ⟨"callback failed", none⟩)) }

/-! ## Auxiliary lemmas -/

theorem execute_checkStock_ok (remote : Remote) (sku : String) (q : Int)
    (h : remote.checkStock sku q = .ok ()) :
    execute (checkStockCall remote sku q) quietOptions =
      ⟨⟨false, none⟩, .ok (), [Effect.request (Request.checkStock sku q)]⟩ := by
  simp [execute, checkStockCall, quietOptions, h]

theorem execute_checkStock_error (remote : Remote) (sku : String) (q : Int) (err : ApiError)
    (h : remote.checkStock sku q = .error err) :
    execute (checkStockCall remote sku q) quietOptions =
      ⟨⟨false, some err⟩, .error err, [Effect.request (Request.checkStock sku q)]⟩ := by
  simp [execute, executeCatch, checkStockCall, quietOptions, h]

theorem execute_checkStock_effects (remote : Remote) (sku : String) (q : Int) :
    (execute (checkStockCall remote sku q) quietOptions).effects =
      [Effect.request (Request.checkStock sku q)] := by
  cases h : remote.checkStock sku q with
  | ok u => cases u; rw [execute_checkStock_ok remote sku q h]
  | error err => rw [execute_checkStock_error remote sku q err h]

theorem execute_checkStock_result (remote : Remote) (sku : String) (q : Int) :
    (execute (checkStockCall remote sku q) quietOptions).result = remote.checkStock sku q := by
  cases h : remote.checkStock sku q with
  | ok u => cases u; rw [execute_checkStock_ok remote sku q h]
  | error err => rw [execute_checkStock_error remote sku q err h]

theorem requests_append (xs ys : List Effect) :
    requests (xs ++ ys) = requests xs ++ requests ys := by
  induction xs with
  | nil => rfl
  | cons x xs ih => cases x <;> simp [requests, ih]

theorem stockChecks_append (xs ys : List Effect) :
    stockChecks (xs ++ ys) = stockChecks xs ++ stockChecks ys := by
  induction xs with
  | nil => rfl
  | cons x xs ih =>
    cases x with
    | request r => cases r <;> simp [stockChecks, ih]
    | toastSuccess m => simp [stockChecks, ih]
    | toastError m => simp [stockChecks, ih]
    | navigate m => simp [stockChecks, ih]

theorem createPayloads_append (xs ys : List Effect) :
    createPayloads (xs ++ ys) = createPayloads xs ++ createPayloads ys := by
  induction xs with
  | nil => rfl
  | cons x xs ih =>
    cases x with
    | request r => cases r <;> simp [createPayloads, ih]
    | toastSuccess m => simp [createPayloads, ih]
    | toastError m => simp [createPayloads, ih]
    | navigate m => simp [createPayloads, ih]

/-- The quantity rewrite keeps every SKU where it is. -/
theorem setLineQuantity_skus (sku : String) (q : Int) (items : List OrderItem) :
    (setLineQuantity sku q items).map (fun item => item.productSku) =
      items.map (fun item => item.productSku) := by
  induction items with
  | nil => rfl
  | cons x xs ih =>
    simp only [setLineQuantity, List.map_cons] at ih ⊢
    rw [ih]
    by_cases hx : x.productSku = sku <;> simp [hx]

theorem setLineQuantity_length (sku : String) (q : Int) (items : List OrderItem) :
    (setLineQuantity sku q items).length = items.length := by
  simp [setLineQuantity]

theorem setLineQuantity_getElem? (sku : String) (q : Int) (items : List OrderItem) (i : Nat) :
    (setLineQuantity sku q items)[i]? =
      (items[i]?).map (fun item =>
        if item.productSku = sku then { item with quantity := q } else item) := by
  simp [setLineQuantity, List.getElem?_map]

theorem lineCount_eq_count (sku : String) (items : List OrderItem) :
    lineCount sku items = (items.map (fun item => item.productSku)).count sku := by
  induction items with
  | nil => rfl
  | cons x xs ih =>
    unfold lineCount at ih ⊢
    by_cases hx : x.productSku = sku
    · simp [List.filter_cons, hx, ih]
    · simp [List.filter_cons, hx, ih, List.count_cons]

theorem lineCount_setLineQuantity (sku sku2 : String) (q : Int) (items : List OrderItem) :
    lineCount sku2 (setLineQuantity sku q items) = lineCount sku2 items := by
  rw [lineCount_eq_count, lineCount_eq_count, setLineQuantity_skus]

/-- With a single line for the SKU in the draft, `find` returns that line. -/
theorem find_of_unique (sku : String) (items : List OrderItem) (e : OrderItem)
    (hmem : e ∈ items) (hsku : e.productSku = sku) (huniq : lineCount sku items = 1) :
    items.find? (fun item => item.productSku == sku) = some e := by
  cases hf : items.find? (fun item => item.productSku == sku) with
  | none =>
    rw [List.find?_eq_none] at hf
    exact absurd (by simpa using hsku) (hf e hmem)
  | some e2 =>
    have h2 : e2 ∈ items.filter (fun item => item.productSku == sku) := by
      have hm := List.mem_of_find?_eq_some hf
      have hp := List.find?_some hf
      exact List.mem_filter.mpr ⟨hm, hp⟩
    have h1 : e ∈ items.filter (fun item => item.productSku == sku) :=
      List.mem_filter.mpr ⟨hmem, by simpa using hsku⟩
    unfold lineCount at huniq
    obtain ⟨x, hx⟩ := List.length_eq_one.mp huniq
    rw [hx] at h1 h2
    simp only [List.mem_singleton] at h1 h2
    rw [h1, h2]

theorem find_none_of_absent (sku : String) (items : List OrderItem)
    (habsent : ∀ item ∈ items, item.productSku ≠ sku) :
    items.find? (fun item => item.productSku == sku) = none := by
  rw [List.find?_eq_none]
  intro x hx
  simpa using habsent x hx

theorem find_some_of_mem (sku : String) (items : List OrderItem) (e : OrderItem)
    (hmem : e ∈ items) (hsku : e.productSku = sku) :
    ∃ e2, items.find? (fun item => item.productSku == sku) = some e2 := by
  cases hf : items.find? (fun item => item.productSku == sku) with
  | none =>
    rw [List.find?_eq_none] at hf
    exact absurd (by simpa using hsku) (hf e hmem)
  | some e2 => exact ⟨e2, rfl⟩

theorem execute_createOrder_ok (remote : Remote) (d : OrderData) (o : Order)
    (h : remote.createOrder d = .ok o) :
    execute (createOrderCall remote d) createOptions =
      ⟨⟨false, none⟩, .ok o,
        [Effect.request (Request.createOrder d), Effect.navigate ("/orders/" ++ toString o.id),
          Effect.toastSuccess "Order created successfully"]⟩ := by
  simp [execute, createOrderCall, createOptions, truthyString, h]

theorem execute_createOrder_error (remote : Remote) (d : OrderData) (err : ApiError)
    (h : remote.createOrder d = .error err) :
    execute (createOrderCall remote d) createOptions =
      ⟨⟨false, some err⟩, .error err,
        [Effect.request (Request.createOrder d),
          Effect.toastError ((truthyString err.responseMessage).getD "An error occurred")]⟩ := by
  simp [execute, executeCatch, createOrderCall, createOptions, h]

theorem mem_setLineQuantity (sku : String) (q : Int) (items : List OrderItem) (x : OrderItem)
    (hx : x ∈ setLineQuantity sku q items) :
    (x ∈ items ∧ x.productSku ≠ sku) ∨ (x.productSku = sku ∧ x.quantity = q) := by
  simp only [setLineQuantity, List.mem_map] at hx
  obtain ⟨a, ha, hax⟩ := hx
  by_cases hs : a.productSku = sku
  · right
    simp only [beq_iff_eq, hs, if_true] at hax
    rw [← hax]
    exact ⟨rfl, rfl⟩
  · left
    simp only [beq_iff_eq, hs, if_false] at hax
    rw [← hax]
    exact ⟨ha, hs⟩

theorem wellFormed_nil : WellFormed [] := by
  simp [WellFormed]

theorem wellFormed_setLineQuantity (sku : String) (q : Int) (items : List OrderItem)
    (hwf : WellFormed items) (hq : 0 < q) : WellFormed (setLineQuantity sku q items) := by
  refine ⟨?_, ?_⟩
  · rw [setLineQuantity_skus]
    exact hwf.1
  · intro x hx
    rcases mem_setLineQuantity sku q items x hx with h | h
    · exact hwf.2 x h.1
    · rw [h.2]
      exact hq

theorem wellFormed_filter (keep : OrderItem → Bool) (items : List OrderItem)
    (hwf : WellFormed items) : WellFormed (items.filter keep) := by
  refine ⟨?_, ?_⟩
  · exact List.Nodup.sublist ((List.filter_sublist items).map _) hwf.1
  · intro x hx
    exact hwf.2 x (List.mem_of_mem_filter hx)

theorem wellFormed_append_new (items : List OrderItem) (x : OrderItem)
    (hwf : WellFormed items) (hq : 0 < x.quantity)
    (hfind : items.find? (fun item => item.productSku == x.productSku) = none) :
    WellFormed (items ++ [x]) := by
  rw [List.find?_eq_none] at hfind
  refine ⟨?_, ?_⟩
  · rw [List.map_append, List.map_singleton]
    apply List.Nodup.append hwf.1 (List.nodup_singleton _)
    intro a ha hb
    rw [List.mem_singleton] at hb
    rw [List.mem_map] at ha
    obtain ⟨y, hy, hya⟩ := ha
    have := hfind y hy
    simp only [beq_iff_eq] at this
    exact this (hya.trans hb)
  · intro y hy
    rw [List.mem_append, List.mem_singleton] at hy
    rcases hy with h | h
    · exact hwf.2 y h
    · rw [h]
      exact hq

/-! ## Closed forms of `addProductToOrder` and `updateItemQuantity` -/

theorem addProductToOrder_existing_ok (remote : Remote) (s : State) (p : Product)
    (e : OrderItem) (hsel : s.selectedProduct = some p) (hpos : 0 < s.quantity)
    (hfind : s.orderItems.find? (fun item => item.productSku == p.sku) = some e)
    (hok : remote.checkStock p.sku (e.quantity + s.quantity) = .ok ()) :
    addProductToOrder remote s =
      ({ s with
          orderItems := setLineQuantity p.sku (e.quantity + s.quantity) s.orderItems
          selectedProduct := none
          quantity := 1
          searchTerm := ""
          stockCall := ⟨false, none⟩ },
        [Effect.request (Request.checkStock p.sku (e.quantity + s.quantity)),
          Effect.toastSuccess
            ("Updated " ++ p.name ++ " quantity to " ++ toString (e.quantity + s.quantity))]) := by
  unfold addProductToOrder
  simp [hsel, not_le.mpr hpos, hfind, execute_checkStock_ok remote _ _ hok]

theorem addProductToOrder_new_ok (remote : Remote) (s : State) (p : Product)
    (hsel : s.selectedProduct = some p) (hpos : 0 < s.quantity)
    (hfind : s.orderItems.find? (fun item => item.productSku == p.sku) = none)
    (hok : remote.checkStock p.sku s.quantity = .ok ()) :
    addProductToOrder remote s =
      ({ s with
          orderItems := s.orderItems ++ [⟨p.sku, p.name, p.quantityInStock, s.quantity⟩]
          selectedProduct := none
          quantity := 1
          searchTerm := ""
          stockCall := ⟨false, none⟩ },
        [Effect.request (Request.checkStock p.sku s.quantity),
          Effect.toastSuccess ("Added " ++ p.name ++ " to order")]) := by
  unfold addProductToOrder
  simp [hsel, not_le.mpr hpos, hfind, execute_checkStock_ok remote _ _ hok]

theorem addProductToOrder_fail (remote : Remote) (s : State) (p : Product) (err : ApiError)
    (hsel : s.selectedProduct = some p) (hpos : 0 < s.quantity)
    (hfail : remote.checkStock p.sku (requestedTotal s p) = .error err) :
    addProductToOrder remote s =
      ({ s with stockCall := ⟨false, some err⟩ },
        [Effect.request (Request.checkStock p.sku (requestedTotal s p)),
          Effect.toastError
            ("Insufficient stock. Only " ++ toString p.quantityInStock ++ " available.")]) := by
  unfold addProductToOrder
  unfold requestedTotal at hfail ⊢
  cases hfind : s.orderItems.find? (fun item => item.productSku == p.sku) with
  | none =>
    rw [hfind] at hfail
    simp [hsel, not_le.mpr hpos, hfind, execute_checkStock_error remote _ _ err hfail]
  | some e =>
    rw [hfind] at hfail
    simp [hsel, not_le.mpr hpos, hfind, execute_checkStock_error remote _ _ err hfail]

theorem updateItemQuantity_ok (remote : Remote) (s : State) (sku : String) (n : Int)
    (e : OrderItem) (hpos : 0 < n)
    (hfind : s.orderItems.find? (fun item => item.productSku == sku) = some e)
    (hok : remote.checkStock sku n = .ok ()) :
    updateItemQuantity remote sku n s =
      ({ s with
          orderItems := setLineQuantity sku n s.orderItems
          stockCall := ⟨false, none⟩ },
        [Effect.request (Request.checkStock sku n)]) := by
  unfold updateItemQuantity
  simp [not_le.mpr hpos, hfind, execute_checkStock_ok remote _ _ hok]

theorem updateItemQuantity_fail (remote : Remote) (s : State) (sku : String) (n : Int)
    (e : OrderItem) (err : ApiError) (hpos : 0 < n)
    (hfind : s.orderItems.find? (fun item => item.productSku == sku) = some e)
    (hfail : remote.checkStock sku n = .error err) :
    updateItemQuantity remote sku n s =
      ({ s with stockCall := ⟨false, some err⟩ },
        [Effect.request (Request.checkStock sku n),
          Effect.toastError
            ("Insufficient stock. Only " ++ toString e.availableStock ++ " available.")]) := by
  unfold updateItemQuantity
  simp [not_le.mpr hpos, hfind, execute_checkStock_error remote _ _ err hfail]

theorem updateItemQuantity_absent (remote : Remote) (s : State) (sku : String) (n : Int)
    (hpos : 0 < n)
    (hfind : s.orderItems.find? (fun item => item.productSku == sku) = none) :
    updateItemQuantity remote sku n s = (s, []) := by
  unfold updateItemQuantity
  simp [not_le.mpr hpos, hfind]

/-! ## Adding a product -/

/-- C1: in a draft that holds exactly one line for the SKU of the selected product `p`,
with quantity `q1`, adding `q2 > 0` issues exactly one request, the stock check for
`(p.sku, q1 + q2)`; when that check passes the draft keeps its length, still has exactly
one line for `p.sku`, and position by position the line for `p.sku` is the old line with
quantity `q1 + q2` while every other line is the old line. -/
theorem addProductToOrder_merges_existing_line (remote : Remote) (s : State) (p : Product)
    (e : OrderItem) (q1 q2 : Int)
    (hsel : s.selectedProduct = some p) (hq2 : s.quantity = q2) (hpos : 0 < q2)
    (hmem : e ∈ s.orderItems) (hsku : e.productSku = p.sku) (hq1 : e.quantity = q1)
    (huniq : lineCount p.sku s.orderItems = 1) :
    requests (addProductToOrder remote s).2 = [Request.checkStock p.sku (q1 + q2)] ∧
    stockChecks (addProductToOrder remote s).2 = [(p.sku, q1 + q2)] ∧
    (remote.checkStock p.sku (q1 + q2) = .ok () →
      lineCount p.sku (addProductToOrder remote s).1.orderItems = 1 ∧
      (addProductToOrder remote s).1.orderItems.length = s.orderItems.length ∧
      ∀ (i : Nat) (item : OrderItem), s.orderItems[i]? = some item →
        (addProductToOrder remote s).1.orderItems[i]? =
          some (if item.productSku = p.sku then { item with quantity := q1 + q2 } else item)) := by
  have hfind := find_of_unique p.sku s.orderItems e hmem hsku huniq
  have hpos2 : 0 < s.quantity := by rw [hq2]; exact hpos
  have htot : requestedTotal s p = q1 + q2 := by
    simp [requestedTotal, hfind, hq1, hq2]
  cases hres : remote.checkStock p.sku (q1 + q2) with
  | error err =>
    have hfail : remote.checkStock p.sku (requestedTotal s p) = .error err := by
      rw [htot]; exact hres
    rw [addProductToOrder_fail remote s p err hsel hpos2 hfail, htot]
    simp [requests, stockChecks]
  | ok u =>
    cases u
    have hok : remote.checkStock p.sku (e.quantity + s.quantity) = .ok () := by
      rw [hq1, hq2]; exact hres
    rw [addProductToOrder_existing_ok remote s p e hsel hpos2 hfind hok, hq1, hq2]
    refine ⟨by simp [requests], by simp [stockChecks], fun _ => ⟨?_, ?_, ?_⟩⟩
    · simpa [lineCount_setLineQuantity] using huniq
    · simp [setLineQuantity_length]
    · intro i item hi
      simp [setLineQuantity_getElem?, hi]

/-- Witness for C1: draft `[{ABC, 3}, {XYZ, 1}]`, selected product ABC, quantity 4, the
service passing every check. -/
theorem addProductToOrder_merges_existing_line_witness :
    requests (addProductToOrder ⟨fun _ _ => .ok (), fun _ => .error ⟨"", none⟩⟩
        ⟨1, [⟨"ABC", "Bolt", 10, 3⟩, ⟨"XYZ", "Nut", 4, 1⟩], "", some ⟨7, "ABC", "Bolt", "A1", 10⟩,
          4, ⟨false, none⟩, ⟨false, none⟩⟩).2 = [Request.checkStock "ABC" (3 + 4)] ∧
    (addProductToOrder ⟨fun _ _ => .ok (), fun _ => .error ⟨"", none⟩⟩
        ⟨1, [⟨"ABC", "Bolt", 10, 3⟩, ⟨"XYZ", "Nut", 4, 1⟩], "", some ⟨7, "ABC", "Bolt", "A1", 10⟩,
          4, ⟨false, none⟩, ⟨false, none⟩⟩).1.orderItems.length = 2 :=
  have h := addProductToOrder_merges_existing_line
    ⟨fun _ _ => .ok (), fun _ => .error ⟨"", none⟩⟩
    ⟨1, [⟨"ABC", "Bolt", 10, 3⟩, ⟨"XYZ", "Nut", 4, 1⟩], "", some ⟨7, "ABC", "Bolt", "A1", 10⟩,
      4, ⟨false, none⟩, ⟨false, none⟩⟩
    ⟨7, "ABC", "Bolt", "A1", 10⟩ ⟨"ABC", "Bolt", 10, 3⟩ 3 4
    rfl rfl (by decide) (by decide) rfl rfl (by decide)
  ⟨h.1, (h.2.2 rfl).2.1⟩

/-- C2: when the stock check for the requested total (the quantity plus what the draft
already holds for the SKU) fails, `addProductToOrder` leaves the draft and the selection
untouched, issues only that one check, and reports insufficient stock quoting the stock
figure of the selected product. -/
theorem addProductToOrder_rejected_keeps_draft (remote : Remote) (s : State) (p : Product)
    (err : ApiError)
    (hsel : s.selectedProduct = some p) (hpos : 0 < s.quantity)
    (hfail : remote.checkStock p.sku (requestedTotal s p) = .error err) :
    (addProductToOrder remote s).1.orderItems = s.orderItems ∧
    (addProductToOrder remote s).1.selectedProduct = s.selectedProduct ∧
    (addProductToOrder remote s).1.quantity = s.quantity ∧
    (addProductToOrder remote s).2 =
      [Effect.request (Request.checkStock p.sku (requestedTotal s p)),
        Effect.toastError
          ("Insufficient stock. Only " ++ toString p.quantityInStock ++ " available.")] := by
  rw [addProductToOrder_fail remote s p err hsel hpos hfail]
  exact ⟨rfl, rfl, rfl, rfl⟩

/-- Witness for C2, the scenario of the specification: from the empty draft, adding ABC
(stock 5) with quantity 3 gives the draft `[{ABC, 3}]`; adding 4 more asks for 7, the
check fails, the report quotes 5 and the draft is still `[{ABC, 3}]`. -/
theorem addProductToOrder_rejected_keeps_draft_witness :
    (addProductToOrder (stockUpTo 5) (composing [] (some sampleAbc) 3)).1.orderItems =
      [⟨"ABC", "Widget", 5, 3⟩] ∧
    (addProductToOrder (stockUpTo 5)
        (composing [⟨"ABC", "Widget", 5, 3⟩] (some sampleAbc) 4)).1.orderItems =
      [⟨"ABC", "Widget", 5, 3⟩] ∧
    (addProductToOrder (stockUpTo 5)
        (composing [⟨"ABC", "Widget", 5, 3⟩] (some sampleAbc) 4)).2 =
      [Effect.request (Request.checkStock "ABC" 7),
        Effect.toastError "Insufficient stock. Only 5 available."] :=
  have h := addProductToOrder_rejected_keeps_draft (stockUpTo 5)
    (composing [⟨"ABC", "Widget", 5, 3⟩] (some sampleAbc) 4) sampleAbc
    ⟨"Request failed", none⟩ rfl (by decide) rfl
  ⟨by decide, h.1, h.2.2.2.trans (by decide)⟩

/-- C5: when the draft has no line for the SKU of the selected product `p`, the quantity
`q` is positive and the stock check for `(p.sku, q)` passes, `addProductToOrder` returns
the old draft followed by the single new line
`{productSku: p.sku, productName: p.name, availableStock: p.quantityInStock, quantity: q}`
and resets the transient selection (`selectedProduct = null`, `quantity = 1`, empty
search term); the only request is that stock check. -/
theorem addProductToOrder_appends_new_line (remote : Remote) (s : State) (p : Product) (q : Int)
    (hsel : s.selectedProduct = some p) (hq : s.quantity = q) (hpos : 0 < q)
    (habsent : ∀ item ∈ s.orderItems, item.productSku ≠ p.sku)
    (hok : remote.checkStock p.sku q = .ok ()) :
    (addProductToOrder remote s).1.orderItems =
      s.orderItems ++ [⟨p.sku, p.name, p.quantityInStock, q⟩] ∧
    (addProductToOrder remote s).1.selectedProduct = none ∧
    (addProductToOrder remote s).1.quantity = 1 ∧
    (addProductToOrder remote s).1.searchTerm = "" ∧
    requests (addProductToOrder remote s).2 = [Request.checkStock p.sku q] := by
  have hfind := find_none_of_absent p.sku s.orderItems habsent
  have hpos2 : 0 < s.quantity := by rw [hq]; exact hpos
  have hok2 : remote.checkStock p.sku s.quantity = .ok () := by rw [hq]; exact hok
  rw [addProductToOrder_new_ok remote s p hsel hpos2 hfind hok2, hq]
  exact ⟨rfl, rfl, rfl, rfl, by simp [requests]⟩

/-- Witness for C5: draft `[{XYZ, 2}]`, product ABC (stock 5) selected with quantity 3,
the service passing checks up to 5. -/
theorem addProductToOrder_appends_new_line_witness :
    (addProductToOrder (stockUpTo 5)
        (composing [⟨"XYZ", "Nut", 9, 2⟩] (some sampleAbc) 3)).1.orderItems =
      [⟨"XYZ", "Nut", 9, 2⟩, ⟨"ABC", "Widget", 5, 3⟩] ∧
    (addProductToOrder (stockUpTo 5)
        (composing [⟨"XYZ", "Nut", 9, 2⟩] (some sampleAbc) 3)).1.selectedProduct = none :=
  have h := addProductToOrder_appends_new_line (stockUpTo 5)
    (composing [⟨"XYZ", "Nut", 9, 2⟩] (some sampleAbc) 3) sampleAbc 3
    rfl rfl (by decide) (by decide) rfl
  ⟨h.1, h.2.1⟩

/-! ## Changing and removing lines -/

/-- C6: for a draft with a line for `sku` and `newQuantity > 0`, `updateItemQuantity`
issues exactly one request, the stock check for `(sku, newQuantity)` itself (nothing is
added to it); when the check passes, the draft keeps its length and position by position
the lines for `sku` become the old line with quantity `newQuantity` while all other lines
are the old lines; when it fails, the draft is unchanged. The selection is never touched. -/
theorem updateItemQuantity_replaces_quantity (remote : Remote) (s : State) (sku : String)
    (newQuantity : Int) (e : OrderItem)
    (hmem : e ∈ s.orderItems) (hsku : e.productSku = sku) (hpos : 0 < newQuantity) :
    requests (updateItemQuantity remote sku newQuantity s).2 =
      [Request.checkStock sku newQuantity] ∧
    stockChecks (updateItemQuantity remote sku newQuantity s).2 = [(sku, newQuantity)] ∧
    (updateItemQuantity remote sku newQuantity s).1.selectedProduct = s.selectedProduct ∧
    (updateItemQuantity remote sku newQuantity s).1.quantity = s.quantity ∧
    (remote.checkStock sku newQuantity = .ok () →
      (updateItemQuantity remote sku newQuantity s).1.orderItems.length = s.orderItems.length ∧
      ∀ (i : Nat) (item : OrderItem), s.orderItems[i]? = some item →
        (updateItemQuantity remote sku newQuantity s).1.orderItems[i]? =
          some (if item.productSku = sku then
            ⟨item.productSku, item.productName, item.availableStock, newQuantity⟩ else item)) ∧
    (∀ err, remote.checkStock sku newQuantity = .error err →
      (updateItemQuantity remote sku newQuantity s).1.orderItems = s.orderItems) := by
  obtain ⟨e2, hfind⟩ := find_some_of_mem sku s.orderItems e hmem hsku
  cases hres : remote.checkStock sku newQuantity with
  | error err =>
    rw [updateItemQuantity_fail remote s sku newQuantity e2 err hpos hfind hres]
    simp [requests, stockChecks]
  | ok u =>
    cases u
    rw [updateItemQuantity_ok remote s sku newQuantity e2 hpos hfind hres]
    refine ⟨by simp [requests], by simp [stockChecks], rfl, rfl, fun _ => ⟨?_, ?_⟩, ?_⟩
    · simp [setLineQuantity_length]
    · intro i item hi
      simp [setLineQuantity_getElem?, hi]
    · intro err herr
      cases herr

/-- Witness for C6: draft `[{ABC, 3}]`, new quantity 4, the service passing checks up to
5: one check for `(ABC, 4)`, not for 7. -/
theorem updateItemQuantity_replaces_quantity_witness :
    requests (updateItemQuantity (stockUpTo 5) "ABC" 4
      (composing [⟨"ABC", "Widget", 5, 3⟩] none 1)).2 = [Request.checkStock "ABC" 4] ∧
    (updateItemQuantity (stockUpTo 5) "ABC" 4
      (composing [⟨"ABC", "Widget", 5, 3⟩] none 1)).1.orderItems[0]? =
        some ⟨"ABC", "Widget", 5, 4⟩ :=
  have h := updateItemQuantity_replaces_quantity (stockUpTo 5)
    (composing [⟨"ABC", "Widget", 5, 3⟩] none 1) "ABC" 4 ⟨"ABC", "Widget", 5, 3⟩
    (by decide) rfl (by decide)
  ⟨h.1, (h.2.2.2.2.1 rfl).2 0 ⟨"ABC", "Widget", 5, 3⟩ rfl⟩

/-- C7: for every draft, SKU and `newQuantity <= 0`, `updateItemQuantity` returns exactly
what `removeItemFromOrder` returns (state and effects) and issues no request, so no
stock check. -/
theorem updateItemQuantity_nonpositive_is_remove (remote : Remote) (s : State) (sku : String)
    (newQuantity : Int) (hle : newQuantity ≤ 0) :
    updateItemQuantity remote sku newQuantity s = removeItemFromOrder sku s ∧
    requests (updateItemQuantity remote sku newQuantity s).2 = [] ∧
    stockChecks (updateItemQuantity remote sku newQuantity s).2 = [] := by
  have h : updateItemQuantity remote sku newQuantity s = removeItemFromOrder sku s := by
    unfold updateItemQuantity
    simp [hle]
  rw [h]
  exact ⟨rfl, rfl, rfl⟩

/-- Witness for C7: quantity 0 on the draft `[{ABC, 3}, {XYZ, 2}]`. -/
theorem updateItemQuantity_nonpositive_is_remove_witness :
    updateItemQuantity (stockUpTo 5) "ABC" 0
        (composing [⟨"ABC", "Widget", 5, 3⟩, ⟨"XYZ", "Nut", 9, 2⟩] none 1) =
      removeItemFromOrder "ABC"
        (composing [⟨"ABC", "Widget", 5, 3⟩, ⟨"XYZ", "Nut", 9, 2⟩] none 1) ∧
    (removeItemFromOrder "ABC"
        (composing [⟨"ABC", "Widget", 5, 3⟩, ⟨"XYZ", "Nut", 9, 2⟩] none 1)).1.orderItems =
      [⟨"XYZ", "Nut", 9, 2⟩] :=
  ⟨(updateItemQuantity_nonpositive_is_remove (stockUpTo 5)
      (composing [⟨"ABC", "Widget", 5, 3⟩, ⟨"XYZ", "Nut", 9, 2⟩] none 1) "ABC" 0
      (by decide)).1, by decide⟩

/-- C8: `removeItemFromOrder` issues no request; the new draft is a sublist of the old
one (relative order kept), holds exactly the old lines whose SKU differs from `sku`,
each as often as before; when no line carries `sku` the draft is unchanged; and removing
a second time changes nothing. -/
theorem removeItemFromOrder_deletes_sku_lines (s : State) (sku : String) :
    requests (removeItemFromOrder sku s).2 = [] ∧
    (removeItemFromOrder sku s).1.orderItems.Sublist s.orderItems ∧
    (∀ item, item ∈ (removeItemFromOrder sku s).1.orderItems ↔
      item ∈ s.orderItems ∧ item.productSku ≠ sku) ∧
    (∀ item, item.productSku ≠ sku →
      (removeItemFromOrder sku s).1.orderItems.count item = s.orderItems.count item) ∧
    ((∀ item ∈ s.orderItems, item.productSku ≠ sku) →
      (removeItemFromOrder sku s).1.orderItems = s.orderItems) ∧
    (removeItemFromOrder sku (removeItemFromOrder sku s).1).1 = (removeItemFromOrder sku s).1 := by
  refine ⟨rfl, ?_, ?_, ?_, ?_, ?_⟩
  · exact List.filter_sublist _
  · intro item
    simp [removeItemFromOrder, List.mem_filter]
  · intro item hne
    simp only [removeItemFromOrder]
    rw [List.count_filter]
    simpa using hne
  · intro habsent
    simp only [removeItemFromOrder]
    rw [List.filter_eq_self]
    intro a ha
    simpa using habsent a ha
  · simp [removeItemFromOrder, List.filter_filter]

/-! ## Submitting the draft -/

/-- C9: on a draft with zero lines `handleCreateOrder` only shows the error toast: the
state (so the empty draft) is returned as it was and the trace holds no request at all,
in particular no create-order request. -/
theorem handleCreateOrder_empty_rejected (remote : Remote) (s : State)
    (hempty : s.orderItems = []) :
    handleCreateOrder remote s =
      (s, [Effect.toastError "Please add at least one item to the order"]) ∧
    requests (handleCreateOrder remote s).2 = [] ∧
    createPayloads (handleCreateOrder remote s).2 = [] ∧
    (handleCreateOrder remote s).1.orderItems = [] := by
  have h : handleCreateOrder remote s =
      (s, [Effect.toastError "Please add at least one item to the order"]) := by
    unfold handleCreateOrder
    simp [hempty]
  rw [h]
  exact ⟨rfl, rfl, rfl, hempty⟩

/-- Witness for C9: the component right after mount, against a service that would accept
the order. -/
theorem handleCreateOrder_empty_rejected_witness :
    requests (handleCreateOrder ⟨fun _ _ => .ok (), fun _ => .ok ⟨1, "NEW", 0, []⟩⟩
      State.init).2 = [] :=
  (handleCreateOrder_empty_rejected ⟨fun _ _ => .ok (), fun _ => .ok ⟨1, "NEW", 0, []⟩⟩
    State.init rfl).2.1

/-- C10: for a non-empty draft `handleCreateOrder` issues exactly one request, the create
call, whatever the service answers; its body `orderLineItems` has the length of the draft
and at every position holds `{productSku, quantity}` of the draft line at that position. -/
theorem handleCreateOrder_payload (remote : Remote) (s : State)
    (hne : s.orderItems ≠ []) :
    ∃ d : OrderData,
      requests (handleCreateOrder remote s).2 = [Request.createOrder d] ∧
      createPayloads (handleCreateOrder remote s).2 = [d] ∧
      d.orderLineItems.length = s.orderItems.length ∧
      ∀ (i : Nat) (item : OrderItem), s.orderItems[i]? = some item →
        d.orderLineItems[i]? = some ⟨item.productSku, item.quantity⟩ := by
  refine ⟨orderDataOf s.orderItems, ?_, ?_, ?_, ?_⟩
  · unfold handleCreateOrder
    cases hres : remote.createOrder (orderDataOf s.orderItems) with
    | ok o => simp [hne, execute_createOrder_ok remote _ o hres, requests]
    | error err => simp [hne, execute_createOrder_error remote _ err hres, requests]
  · unfold handleCreateOrder
    cases hres : remote.createOrder (orderDataOf s.orderItems) with
    | ok o => simp [hne, execute_createOrder_ok remote _ o hres, createPayloads]
    | error err => simp [hne, execute_createOrder_error remote _ err hres, createPayloads]
  · simp [orderDataOf]
  · intro i item hi
    simp [orderDataOf, List.getElem?_map, hi]

/-- Witness for C10: the draft `[{ABC, 3}, {XYZ, 2}]` against a service that refuses the
order: the request carries `[{ABC, 3}, {XYZ, 2}]` without names and stock figures. -/
theorem handleCreateOrder_payload_witness :
    ∃ d : OrderData,
      requests (handleCreateOrder (stockUpTo 5)
        (composing [⟨"ABC", "Widget", 5, 3⟩, ⟨"XYZ", "Nut", 9, 2⟩] none 1)).2 =
          [Request.createOrder d] ∧
      d.orderLineItems = [⟨"ABC", 3⟩, ⟨"XYZ", 2⟩] := by
  obtain ⟨d, h1, _, _, _⟩ := handleCreateOrder_payload (stockUpTo 5)
    (composing [⟨"ABC", "Widget", 5, 3⟩, ⟨"XYZ", "Nut", 9, 2⟩] none 1) (by decide)
  refine ⟨d, h1, ?_⟩
  have h2 : requests (handleCreateOrder (stockUpTo 5)
      (composing [⟨"ABC", "Widget", 5, 3⟩, ⟨"XYZ", "Nut", 9, 2⟩] none 1)).2 =
        [Request.createOrder ⟨[⟨"ABC", 3⟩, ⟨"XYZ", 2⟩]⟩] := by decide
  rw [h2] at h1
  injection h1 with h3 _
  injection h3 with h4
  rw [← h4]

/-! ## The draft invariant -/

theorem addProductToOrder_wellFormed (remote : Remote) (s : State)
    (hwf : WellFormed s.orderItems) : WellFormed (addProductToOrder remote s).1.orderItems := by
  cases hsel : s.selectedProduct with
  | none =>
    unfold addProductToOrder
    simpa [hsel] using hwf
  | some p =>
    by_cases hq : s.quantity ≤ 0
    · unfold addProductToOrder
      simpa [hsel, hq] using hwf
    · have hpos : 0 < s.quantity := not_le.mp hq
      cases hres : remote.checkStock p.sku (requestedTotal s p) with
      | error err =>
        rw [addProductToOrder_fail remote s p err hsel hpos hres]
        exact hwf
      | ok u =>
        cases u
        cases hfind : s.orderItems.find? (fun item => item.productSku == p.sku) with
        | none =>
          have hok : remote.checkStock p.sku s.quantity = .ok () := by
            simpa [requestedTotal, hfind] using hres
          rw [addProductToOrder_new_ok remote s p hsel hpos hfind hok]
          exact wellFormed_append_new s.orderItems ⟨p.sku, p.name, p.quantityInStock, s.quantity⟩
            hwf hpos hfind
        | some e =>
          have hok : remote.checkStock p.sku (e.quantity + s.quantity) = .ok () := by
            simpa [requestedTotal, hfind] using hres
          rw [addProductToOrder_existing_ok remote s p e hsel hpos hfind hok]
          have he : 0 < e.quantity := hwf.2 e (List.mem_of_find?_eq_some hfind)
          exact wellFormed_setLineQuantity p.sku _ s.orderItems hwf (by omega)

theorem removeItemFromOrder_wellFormed (sku : String) (s : State)
    (hwf : WellFormed s.orderItems) : WellFormed (removeItemFromOrder sku s).1.orderItems :=
  wellFormed_filter _ s.orderItems hwf

theorem updateItemQuantity_wellFormed (remote : Remote) (sku : String) (n : Int) (s : State)
    (hwf : WellFormed s.orderItems) :
    WellFormed (updateItemQuantity remote sku n s).1.orderItems := by
  by_cases hn : n ≤ 0
  · have h : updateItemQuantity remote sku n s = removeItemFromOrder sku s := by
      unfold updateItemQuantity
      simp [hn]
    rw [h]
    exact removeItemFromOrder_wellFormed sku s hwf
  · have hpos : 0 < n := not_le.mp hn
    cases hfind : s.orderItems.find? (fun item => item.productSku == sku) with
    | none =>
      rw [updateItemQuantity_absent remote s sku n hpos hfind]
      exact hwf
    | some e =>
      cases hres : remote.checkStock sku n with
      | error err =>
        rw [updateItemQuantity_fail remote s sku n e err hpos hfind hres]
        exact hwf
      | ok u =>
        cases u
        rw [updateItemQuantity_ok remote s sku n e hpos hfind hres]
        exact wellFormed_setLineQuantity sku n s.orderItems hwf hpos

theorem handleCreateOrder_orderItems (remote : Remote) (s : State) :
    (handleCreateOrder remote s).1.orderItems = s.orderItems := by
  unfold handleCreateOrder
  by_cases h : s.orderItems.length = 0 <;> simp [h]

theorem step_wellFormed (remote : Remote) (a : Action) (s : State)
    (hwf : WellFormed s.orderItems) : WellFormed (step remote a s).1.orderItems := by
  cases a with
  | setSelectedProduct p => exact hwf
  | setQuantity q => exact hwf
  | setSearchTerm t => exact hwf
  | setCurrentStep n => exact hwf
  | addProductToOrder => exact addProductToOrder_wellFormed remote s hwf
  | removeItemFromOrder sku => exact removeItemFromOrder_wellFormed sku s hwf
  | updateItemQuantity sku n => exact updateItemQuantity_wellFormed remote sku n s hwf
  | handleCreateOrder =>
    simp only [step]
    rw [handleCreateOrder_orderItems]
    exact hwf

theorem run_wellFormed (steps : List (Remote × Action)) (s : State)
    (hwf : WellFormed s.orderItems) : WellFormed (run steps s).orderItems := by
  induction steps generalizing s with
  | nil => exact hwf
  | cons x rest ih =>
    obtain ⟨remote, a⟩ := x
    exact ih _ (step_wellFormed remote a s hwf)

/-- C3: starting from the component as mounted (empty draft), after any sequence of
`addProductToOrder`, `updateItemQuantity` and `removeItemFromOrder` calls, interleaved
with arbitrary changes of the selection and of the quantity field, each run to
completion against arbitrary answers of the service, no two lines of the draft share a
`productSku` and every line has an integer quantity greater than 0. -/
theorem draft_wellFormed_invariant (steps : List (Remote × Action)) :
    ((run steps State.init).orderItems.map (fun item => item.productSku)).Nodup ∧
    ∀ item ∈ (run steps State.init).orderItems, 0 < item.quantity :=
  run_wellFormed steps State.init wellFormed_nil

/-! ## Quantities against the recorded stock figure -/

/-- C4, counterexample: the products were loaded while ABC had 5 in stock, the service
meanwhile passes checks up to 10. Adding 7 succeeds and records the line
`{ABC, availableStock 5, quantity 7}`; changing the line `{ABC, availableStock 5,
quantity 3}` to 8 succeeds as well. In both drafts the quantity exceeds the recorded
`availableStock`. -/
theorem quantity_can_exceed_recorded_stock :
    (addProductToOrder (stockUpTo 10) (composing [] (some sampleAbc) 7)).1.orderItems =
      [⟨"ABC", "Widget", 5, 7⟩] ∧
    (updateItemQuantity (stockUpTo 10) "ABC" 8
        (composing [⟨"ABC", "Widget", 5, 3⟩] none 1)).1.orderItems =
      [⟨"ABC", "Widget", 5, 8⟩] ∧
    ¬ (∀ item ∈ (addProductToOrder (stockUpTo 10)
          (composing [] (some sampleAbc) 7)).1.orderItems,
        item.quantity ≤ item.availableStock) ∧
    ¬ (∀ item ∈ (updateItemQuantity (stockUpTo 10) "ABC" 8
          (composing [⟨"ABC", "Widget", 5, 3⟩] none 1)).1.orderItems,
        item.quantity ≤ item.availableStock) := by
  decide

/-- C4, amended: after a successful `addProductToOrder` (a product `p` selected, a
positive quantity, the check for the requested total passed) every line of the SKU of `p`
carries exactly the quantity the service has just passed the stock check for; and after
a successful `updateItemQuantity` (any `sku`, a new quantity `n > 0`, the check for `n`
passed), whether or not a product is selected, every line of `sku` carries exactly `n`,
the quantity just checked. Hence such a line stays within its recorded `availableStock`
whenever the service passes checks for that SKU only up to that recorded figure. -/
theorem successful_change_quantity_passed_check (remote : Remote) (s : State) :
    (∀ p : Product, s.selectedProduct = some p → 0 < s.quantity →
      remote.checkStock p.sku (requestedTotal s p) = .ok () →
      ∀ item ∈ (addProductToOrder remote s).1.orderItems, item.productSku = p.sku →
        item.quantity = requestedTotal s p ∧
        remote.checkStock p.sku item.quantity = .ok () ∧
        ((∀ q, remote.checkStock p.sku q = .ok () → q ≤ item.availableStock) →
          item.quantity ≤ item.availableStock)) ∧
    (∀ (sku : String) (n : Int), 0 < n → remote.checkStock sku n = .ok () →
      ∀ item ∈ (updateItemQuantity remote sku n s).1.orderItems, item.productSku = sku →
        item.quantity = n ∧
        remote.checkStock sku item.quantity = .ok () ∧
        ((∀ q, remote.checkStock sku q = .ok () → q ≤ item.availableStock) →
          item.quantity ≤ item.availableStock)) := by
  constructor
  · intro p hsel hpos hadd item hitem hsku
    have hq : item.quantity = requestedTotal s p := by
      cases hfind : s.orderItems.find? (fun item => item.productSku == p.sku) with
      | none =>
        have hok : remote.checkStock p.sku s.quantity = .ok () := by
          simpa [requestedTotal, hfind] using hadd
        rw [addProductToOrder_new_ok remote s p hsel hpos hfind hok] at hitem
        simp only [List.mem_append, List.mem_singleton] at hitem
        rcases hitem with h | h
        · rw [List.find?_eq_none] at hfind
          exact absurd (by simpa using hsku) (hfind item h)
        · simp [requestedTotal, hfind, h]
      | some e =>
        have hok : remote.checkStock p.sku (e.quantity + s.quantity) = .ok () := by
          simpa [requestedTotal, hfind] using hadd
        rw [addProductToOrder_existing_ok remote s p e hsel hpos hfind hok] at hitem
        rcases mem_setLineQuantity p.sku _ s.orderItems item hitem with h | h
        · exact absurd hsku h.2
        · simp [requestedTotal, hfind, h.2]
    have hpass : remote.checkStock p.sku item.quantity = .ok () := by rw [hq]; exact hadd
    exact ⟨hq, hpass, fun hb => hb _ hpass⟩
  · intro sku n hn hupd item hitem hsku
    have hq : item.quantity = n := by
      cases hfind : s.orderItems.find? (fun item => item.productSku == sku) with
      | none =>
        rw [updateItemQuantity_absent remote s sku n hn hfind] at hitem
        rw [List.find?_eq_none] at hfind
        exact absurd (by simpa using hsku) (hfind item hitem)
      | some e =>
        rw [updateItemQuantity_ok remote s sku n e hn hfind hupd] at hitem
        rcases mem_setLineQuantity sku n s.orderItems item hitem with h | h
        · exact absurd hsku h.2
        · exact h.2
    have hpass : remote.checkStock sku item.quantity = .ok () := by rw [hq]; exact hupd
    exact ⟨hq, hpass, fun hb => hb _ hpass⟩

/-- Witness for the amended C4: on the draft `[{ABC, 5, 2}]` with ABC selected and
quantity 2 the total 4 passes and the line carries 4; on the same draft with no product
selected, as after every successful add, a change of the ABC line to 5 passes and the
line carries 5; the service passes checks up to 5. -/
theorem successful_change_quantity_passed_check_witness :
    (∀ item ∈ (addProductToOrder (stockUpTo 5)
        (composing [⟨"ABC", "Widget", 5, 2⟩] (some sampleAbc) 2)).1.orderItems,
      item.productSku = "ABC" → item.quantity = 4) ∧
    (∀ item ∈ (updateItemQuantity (stockUpTo 5) "ABC" 5
        (composing [⟨"ABC", "Widget", 5, 2⟩] none 1)).1.orderItems,
      item.productSku = "ABC" → item.quantity = 5) ∧
    (updateItemQuantity (stockUpTo 5) "ABC" 5
        (composing [⟨"ABC", "Widget", 5, 2⟩] none 1)).1.orderItems =
      [⟨"ABC", "Widget", 5, 5⟩] :=
  ⟨fun item hi hs =>
      ((successful_change_quantity_passed_check (stockUpTo 5)
        (composing [⟨"ABC", "Widget", 5, 2⟩] (some sampleAbc) 2)).1 sampleAbc rfl (by decide) rfl
        item hi hs).1,
    fun item hi hs =>
      ((successful_change_quantity_passed_check (stockUpTo 5)
        (composing [⟨"ABC", "Widget", 5, 2⟩] none 1)).2 "ABC" 5 (by decide) rfl item hi hs).1,
    by decide⟩

/-! ## A refused order creation -/

/-- C11: when the remote create call fails, `handleCreateOrder` leaves `orderItems`, the
selection and the quantity field as they were; the failure is kept in the hook state and
shown as the error toast. A second submission of a non-empty draft therefore sends
exactly the payload of the first one, whatever the service answers then. -/
theorem handleCreateOrder_failure_keeps_draft (remote retry : Remote) (s : State)
    (err : ApiError)
    (hfail : remote.createOrder (orderDataOf s.orderItems) = .error err) :
    (handleCreateOrder remote s).1.orderItems = s.orderItems ∧
    (handleCreateOrder remote s).1.selectedProduct = s.selectedProduct ∧
    (handleCreateOrder remote s).1.quantity = s.quantity ∧
    (s.orderItems ≠ [] →
      (handleCreateOrder remote s).1.createCall = ⟨false, some err⟩ ∧
      (handleCreateOrder remote s).2 =
        [Effect.request (Request.createOrder (orderDataOf s.orderItems)),
          Effect.toastError ((truthyString err.responseMessage).getD "An error occurred")] ∧
      createPayloads (handleCreateOrder retry (handleCreateOrder remote s).1).2 =
        createPayloads (handleCreateOrder remote s).2) := by
  by_cases hempty : s.orderItems = []
  · have h : handleCreateOrder remote s =
        (s, [Effect.toastError "Please add at least one item to the order"]) := by
      unfold handleCreateOrder
      simp [hempty]
    rw [h]
    exact ⟨rfl, rfl, rfl, fun hne => absurd hempty hne⟩
  · have h : handleCreateOrder remote s =
        ({ s with createCall := ⟨false, some err⟩ },
          [Effect.request (Request.createOrder (orderDataOf s.orderItems)),
            Effect.toastError
              ((truthyString err.responseMessage).getD "An error occurred")]) := by
      unfold handleCreateOrder
      simp [hempty, execute_createOrder_error remote _ err hfail]
    rw [h]
    refine ⟨rfl, rfl, rfl, fun _ => ⟨rfl, rfl, ?_⟩⟩
    unfold handleCreateOrder
    cases hres : retry.createOrder (orderDataOf s.orderItems) with
    | ok o => simp [hempty, execute_createOrder_ok retry _ o hres, createPayloads]
    | error e2 => simp [hempty, execute_createOrder_error retry _ e2 hres, createPayloads]

/-- Witness for C11: the draft `[{ABC, 3}]` against a service that refuses the order. -/
theorem handleCreateOrder_failure_keeps_draft_witness :
    (handleCreateOrder (stockUpTo 5)
      (composing [⟨"ABC", "Widget", 5, 3⟩] none 1)).1.orderItems = [⟨"ABC", "Widget", 5, 3⟩] ∧
    (handleCreateOrder (stockUpTo 5) (composing [⟨"ABC", "Widget", 5, 3⟩] none 1)).2 =
      [Effect.request (Request.createOrder ⟨[⟨"ABC", 3⟩]⟩),
        Effect.toastError "An error occurred"] :=
  have h := handleCreateOrder_failure_keeps_draft (stockUpTo 5) (stockUpTo 5)
    (composing [⟨"ABC", "Widget", 5, 3⟩] none 1) ⟨"Request failed", none⟩ rfl
  ⟨h.1, (h.2.2.2 (by decide)).2.1⟩

/-! ## Actions offered per status -/

/-- C12: for every order, whatever its status string, the detail view offers the cancel
action exactly when the status is NEW or ALLOCATED; it does not for PICKING, COMPLETED
and CANCELLED; and the guard of the list view gives the same answer. -/
theorem cancel_offered_iff_new_or_allocated (order : Order) :
    (OrderDetails.canCancel order = true ↔
      order.status = "NEW" ∨ order.status = "ALLOCATED") ∧
    OrdersList.cancelOffered order = OrderDetails.canCancel order ∧
    OrderDetails.canCancel (orderWithStatus "PICKING") = false ∧
    OrderDetails.canCancel (orderWithStatus "COMPLETED") = false ∧
    OrderDetails.canCancel (orderWithStatus "CANCELLED") = false := by
  refine ⟨?_, rfl, by decide, by decide, by decide⟩
  simp [OrderDetails.canCancel]

/-- C13: for every picking task, whatever its status string, the detail view offers the
complete action exactly when the status is IN_PROGRESS, so never for DONE; and the guard
of the list view gives the same answer. -/
theorem complete_offered_iff_in_progress (task : PickingTask) :
    (TaskDetails.canComplete task = true ↔ task.status = "IN_PROGRESS") ∧
    PickingTasksList.completeOffered task = TaskDetails.canComplete task ∧
    (task.status = "DONE" → TaskDetails.canComplete task = false) := by
  refine ⟨by simp [TaskDetails.canComplete], rfl, ?_⟩
  intro h
  simp [TaskDetails.canComplete, h]

/-! ## The status timeline -/

/-- The position `indexOf` finds for each status string. -/
theorem currentStatusIndex_cases (order : Order) :
    (order.status = "NEW" ∧ OrderDetails.currentStatusIndex order = 0) ∨
    (order.status = "ALLOCATED" ∧ OrderDetails.currentStatusIndex order = 1) ∨
    (order.status = "PICKING" ∧ OrderDetails.currentStatusIndex order = 2) ∨
    (order.status = "COMPLETED" ∧ OrderDetails.currentStatusIndex order = 3) ∨
    (order.status ∉ OrderDetails.statusFlow ∧ OrderDetails.currentStatusIndex order = -1) := by
  unfold OrderDetails.currentStatusIndex OrderDetails.statusFlow
  by_cases h0 : order.status = "NEW"
  · left
    simp [indexOfFrom, h0]
  by_cases h1 : order.status = "ALLOCATED"
  · right; left
    simp [indexOfFrom, h1]
  by_cases h2 : order.status = "PICKING"
  · right; right; left
    simp [indexOfFrom, h2]
  by_cases h3 : order.status = "COMPLETED"
  · right; right; right; left
    simp [indexOfFrom, h3]
  · right; right; right; right
    have e0 : ¬ "NEW" = order.status := fun h => h0 h.symm
    have e1 : ¬ "ALLOCATED" = order.status := fun h => h1 h.symm
    have e2 : ¬ "PICKING" = order.status := fun h => h2 h.symm
    have e3 : ¬ "COMPLETED" = order.status := fun h => h3 h.symm
    simp [indexOfFrom, h0, h1, h2, h3, e0, e1, e2, e3]

/-- A status of the flow is not the cancelled status. -/
theorem not_isCancelled_of_flow (order : Order)
    (hflow : order.status ∈ OrderDetails.statusFlow) : OrderDetails.isCancelled order = false := by
  simp only [OrderDetails.statusFlow, List.mem_cons, List.mem_singleton, List.not_mem_nil,
    or_false] at hflow
  rcases hflow with h | h | h | h <;> simp [OrderDetails.isCancelled, h]

/-- For an order that is not cancelled, a step is green up to the current index and
gray after it. -/
theorem getStatusColor_not_cancelled (order : Order) (st : String) (i : Nat)
    (hc : OrderDetails.isCancelled order = false) :
    OrderDetails.getStatusColor order st i =
      if (i : Int) ≤ OrderDetails.currentStatusIndex order then StepColor.green
      else StepColor.gray := by
  unfold OrderDetails.getStatusColor
  by_cases h1 : (i : Int) < OrderDetails.currentStatusIndex order
  · simp [hc, h1, le_of_lt h1]
  · by_cases h2 : (i : Int) = OrderDetails.currentStatusIndex order
    · simp [hc, h2]
    · have h3 : ¬ (i : Int) ≤ OrderDetails.currentStatusIndex order := by omega
      simp [hc, h1, h2, h3]

/-- For an order that is not cancelled, a step shows the check up to the current index
and the clock after it. -/
theorem getStatusIcon_not_cancelled (order : Order) (st : String) (i : Nat)
    (hc : OrderDetails.isCancelled order = false) :
    OrderDetails.getStatusIcon order st i =
      if (i : Int) ≤ OrderDetails.currentStatusIndex order then StepIcon.check
      else StepIcon.clock := by
  unfold OrderDetails.getStatusIcon
  by_cases h1 : (i : Int) < OrderDetails.currentStatusIndex order
  · simp [hc, h1, le_of_lt h1]
  · by_cases h2 : (i : Int) = OrderDetails.currentStatusIndex order
    · simp [hc, h2]
    · have h3 : ¬ (i : Int) ≤ OrderDetails.currentStatusIndex order := by omega
      simp [hc, h1, h2, h3]

/-- The timeline reads nothing of the order but its status. -/
theorem timeline_status_only (order : Order) :
    OrderDetails.timeline order = OrderDetails.timeline (orderWithStatus order.status) := rfl

/-- C14, counterexample: for an order with status PICKING the step PICKING (index 2) is
coloured green with the check icon, the rendering of a done step; it is not given the
blue colour of a current step. -/
theorem picking_step_rendered_done_not_current :
    OrderDetails.getStatusColor (orderWithStatus "PICKING") "PICKING" 2 = StepColor.green ∧
    OrderDetails.getStatusIcon (orderWithStatus "PICKING") "PICKING" 2 = StepIcon.check ∧
    OrderDetails.getStatusColor (orderWithStatus "PICKING") "PICKING" 2 ≠ StepColor.blue := by
  decide

/-- C14, amended: for every order with status PICKING the timeline renders the steps
NEW, ALLOCATED and PICKING (indices 0, 1, 2) as done (green, check) and the step
COMPLETED (index 3) as pending (gray, clock); and `canCancel` is false. -/
theorem picking_timeline_done_up_to_picking (order : Order)
    (hstatus : order.status = "PICKING") :
    OrderDetails.timeline order =
      [(StepColor.green, StepIcon.check), (StepColor.green, StepIcon.check),
        (StepColor.green, StepIcon.check), (StepColor.gray, StepIcon.clock)] ∧
    OrderDetails.canCancel order = false := by
  constructor
  · rw [timeline_status_only, hstatus]
    decide
  · simp [OrderDetails.canCancel, hstatus]

/-- Witness for the amended C14: order 7 with status PICKING and one line. -/
theorem picking_timeline_done_up_to_picking_witness :
    OrderDetails.timeline ⟨7, "PICKING", 1700000000000, [⟨1, "ABC", 3⟩]⟩ =
      [(StepColor.green, StepIcon.check), (StepColor.green, StepIcon.check),
        (StepColor.green, StepIcon.check), (StepColor.gray, StepIcon.clock)] ∧
    OrderDetails.canCancel ⟨7, "PICKING", 1700000000000, [⟨1, "ABC", 3⟩]⟩ = false :=
  picking_timeline_done_up_to_picking ⟨7, "PICKING", 1700000000000, [⟨1, "ABC", 3⟩]⟩ rfl

/-- C15, the code at the failing input: for an order with status CANCELLED `indexOf`
gives -1, so step 0 (NEW) falls through to the pending rendering (gray, clock) instead
of the done one; steps 1, 2 and 3 are rendered as cancelled (red, X) and `canCancel` is
false. -/
theorem cancelled_timeline_first_step_pending :
    OrderDetails.currentStatusIndex (orderWithStatus "CANCELLED") = -1 ∧
    OrderDetails.timeline (orderWithStatus "CANCELLED") =
      [(StepColor.gray, StepIcon.clock), (StepColor.red, StepIcon.x),
        (StepColor.red, StepIcon.x), (StepColor.red, StepIcon.x)] ∧
    OrderDetails.getStatusColor (orderWithStatus "CANCELLED") "NEW" 0 ≠ StepColor.green ∧
    OrderDetails.canCancel (orderWithStatus "CANCELLED") = false := by
  decide

/-- C16: for every order whose status is in the flow NEW, ALLOCATED, PICKING, COMPLETED,
the current index `c` is the position of the status in the flow, and for every step
index `i` (so for 0..3) the step is rendered as done (green, check) when `i <= c` and as
pending (gray, clock) when `i > c`; no step is rendered as cancelled (red or X). -/
theorem flow_status_steps_done_or_pending (order : Order) (st : String) (i : Nat)
    (hflow : order.status ∈ OrderDetails.statusFlow) :
    (∃ c : Nat, OrderDetails.currentStatusIndex order = (c : Int) ∧
      OrderDetails.statusFlow[c]? = some order.status) ∧
    ((i : Int) ≤ OrderDetails.currentStatusIndex order →
      OrderDetails.getStatusColor order st i = StepColor.green ∧
      OrderDetails.getStatusIcon order st i = StepIcon.check) ∧
    (OrderDetails.currentStatusIndex order < (i : Int) →
      OrderDetails.getStatusColor order st i = StepColor.gray ∧
      OrderDetails.getStatusIcon order st i = StepIcon.clock) ∧
    OrderDetails.getStatusColor order st i ≠ StepColor.red ∧
    OrderDetails.getStatusIcon order st i ≠ StepIcon.x := by
  have hc := not_isCancelled_of_flow order hflow
  rw [getStatusColor_not_cancelled order st i hc, getStatusIcon_not_cancelled order st i hc]
  refine ⟨?_, ?_, ?_, ?_, ?_⟩
  · rcases currentStatusIndex_cases order with h | h | h | h | h
    · exact ⟨0, by rw [h.2]; rfl, by rw [h.1]; rfl⟩
    · exact ⟨1, by rw [h.2]; rfl, by rw [h.1]; rfl⟩
    · exact ⟨2, by rw [h.2]; rfl, by rw [h.1]; rfl⟩
    · exact ⟨3, by rw [h.2]; rfl, by rw [h.1]; rfl⟩
    · exact absurd hflow h.1
  · intro hle
    simp [hle]
  · intro hlt
    simp [not_le.mpr hlt]
  · split <;> simp
  · split <;> simp

/-- Witness for C16: status ALLOCATED (index 1): step 1 is done, step 2 is pending. -/
theorem flow_status_steps_done_or_pending_witness :
    OrderDetails.getStatusColor (orderWithStatus "ALLOCATED") "ALLOCATED" 1 = StepColor.green ∧
    OrderDetails.getStatusIcon (orderWithStatus "ALLOCATED") "PICKING" 2 = StepIcon.clock :=
  ⟨((flow_status_steps_done_or_pending (orderWithStatus "ALLOCATED") "ALLOCATED" 1
      (by decide)).2.1 (by decide)).1,
    ((flow_status_steps_done_or_pending (orderWithStatus "ALLOCATED") "PICKING" 2
      (by decide)).2.2.1 (by decide)).2⟩

/-! ## The progress width -/

/-- The width of an order that is not cancelled, from its current index. -/
theorem progressWidth_of_index (order : Order) (c : Int)
    (hc : OrderDetails.isCancelled order = false)
    (hidx : OrderDetails.currentStatusIndex order = c) :
    OrderDetails.progressWidth order =
      Dbl.mul (Dbl.div (Dbl.ofInt c) (Dbl.ofInt 3)) (Dbl.ofInt 100) := by
  unfold OrderDetails.progressWidth
  rw [hidx]
  simp [hc, OrderDetails.statusFlow]

/-- The double the code computes for each status. -/
theorem progressWidth_cases (order : Order) :
    (order.status = "CANCELLED" ∧ OrderDetails.progressWidth order = ⟨0, 0⟩) ∨
    (order.status = "NEW" ∧ OrderDetails.currentStatusIndex order = 0 ∧
      OrderDetails.progressWidth order = ⟨0, 0⟩) ∨
    (order.status = "ALLOCATED" ∧ OrderDetails.currentStatusIndex order = 1 ∧
      OrderDetails.progressWidth order = ⟨4691249611844266, -47⟩) ∨
    (order.status = "PICKING" ∧ OrderDetails.currentStatusIndex order = 2 ∧
      OrderDetails.progressWidth order = ⟨4691249611844266, -46⟩) ∨
    (order.status = "COMPLETED" ∧ OrderDetails.currentStatusIndex order = 3 ∧
      OrderDetails.progressWidth order = ⟨7036874417766400, -46⟩) ∨
    (order.status ∉ OrderDetails.statusFlow ∧ order.status ≠ "CANCELLED" ∧
      OrderDetails.progressWidth order = ⟨-4691249611844266, -47⟩) := by
  by_cases hcan : order.status = "CANCELLED"
  · left
    refine ⟨hcan, ?_⟩
    simp [OrderDetails.progressWidth, OrderDetails.isCancelled, hcan, Dbl.ofInt]
  · right
    have hc : OrderDetails.isCancelled order = false := by
      simp [OrderDetails.isCancelled, hcan]
    rcases currentStatusIndex_cases order with h | h | h | h | h
    · left
      refine ⟨h.1, h.2, ?_⟩
      rw [progressWidth_of_index order 0 hc h.2]
      decide
    · right; left
      refine ⟨h.1, h.2, ?_⟩
      rw [progressWidth_of_index order 1 hc h.2]
      decide
    · right; right; left
      refine ⟨h.1, h.2, ?_⟩
      rw [progressWidth_of_index order 2 hc h.2]
      decide
    · right; right; right; left
      refine ⟨h.1, h.2, ?_⟩
      rw [progressWidth_of_index order 3 hc h.2]
      decide
    · right; right; right; right
      refine ⟨h.1, hcan, ?_⟩
      rw [progressWidth_of_index order (-1) hc h.2]
      decide

/-- The numbers behind the four doubles of the flow. -/
theorem progressWidth_flow_value (order : Order)
    (hflow : order.status ∈ OrderDetails.statusFlow) :
    (OrderDetails.currentStatusIndex order = 0 ∧
      (OrderDetails.progressWidth order).value = 0) ∨
    (OrderDetails.currentStatusIndex order = 1 ∧
      (OrderDetails.progressWidth order).value = 4691249611844266 / 2 ^ 47) ∨
    (OrderDetails.currentStatusIndex order = 2 ∧
      (OrderDetails.progressWidth order).value = 4691249611844266 / 2 ^ 46) ∨
    (OrderDetails.currentStatusIndex order = 3 ∧
      (OrderDetails.progressWidth order).value = 100) := by
  rcases progressWidth_cases order with h | h | h | h | h | h
  · rw [h.1] at hflow
    exact absurd hflow (by decide)
  · left
    refine ⟨h.2.1, ?_⟩
    rw [h.2.2]
    norm_num [Dbl.value]
  · right; left
    refine ⟨h.2.1, ?_⟩
    rw [h.2.2]
    norm_num [Dbl.value]
  · right; right; left
    refine ⟨h.2.1, ?_⟩
    rw [h.2.2]
    norm_num [Dbl.value]
  · right; right; right
    refine ⟨h.2.1, ?_⟩
    rw [h.2.2]
    norm_num [Dbl.value]
  · exact absurd hflow h.1

/-- C17, counterexample: for the statuses ALLOCATED and PICKING the width the code
computes is the double `(1 / 3) * 100`, respectively `(2 / 3) * 100`; these are
4691249611844266 / 2^47 and 4691249611844266 / 2^46 (33.33333333333333 and
66.66666666666666), not 100/3 and 200/3 percent, so the width is not exactly 1/3 and 2/3
of the bar. -/
theorem progressWidth_not_exact_thirds :
    OrderDetails.progressWidth (orderWithStatus "ALLOCATED") = ⟨4691249611844266, -47⟩ ∧
    OrderDetails.progressWidth (orderWithStatus "PICKING") = ⟨4691249611844266, -46⟩ ∧
    (OrderDetails.progressWidth (orderWithStatus "ALLOCATED")).value / 100 ≠ 1 / 3 ∧
    (OrderDetails.progressWidth (orderWithStatus "PICKING")).value / 100 ≠ 2 / 3 := by
  have h1 : OrderDetails.progressWidth (orderWithStatus "ALLOCATED") =
      ⟨4691249611844266, -47⟩ := by decide
  have h2 : OrderDetails.progressWidth (orderWithStatus "PICKING") =
      ⟨4691249611844266, -46⟩ := by decide
  refine ⟨h1, h2, ?_, ?_⟩
  · rw [h1]
    norm_num [Dbl.value]
  · rw [h2]
    norm_num [Dbl.value]

/-- C17, amended: the progress width is 0 percent for a cancelled order; for an order
whose status is in the flow, with current index `c`, it is the double `(c / 3) * 100`:
exactly 0 for NEW and exactly 100 for COMPLETED, and for ALLOCATED and PICKING the
doubles 4691249611844266 / 2^47 and 4691249611844266 / 2^46, which lie below `c / 3` of
the bar by less than 10^-13 percent; so the fraction lies in [0, 1] and grows strictly
with the index; and for every order the width is 100 percent exactly when the status is
COMPLETED. -/
theorem progressWidth_along_flow (order other : Order) :
    (order.status = "CANCELLED" → (OrderDetails.progressWidth order).value = 0) ∧
    (order.status ∈ OrderDetails.statusFlow →
      (OrderDetails.progressWidth order).value ≤
        (OrderDetails.currentStatusIndex order : ℚ) / 3 * 100 ∧
      (OrderDetails.currentStatusIndex order : ℚ) / 3 * 100 -
        (OrderDetails.progressWidth order).value < 1 / 10 ^ 13 ∧
      0 ≤ (OrderDetails.progressWidth order).value / 100 ∧
      (OrderDetails.progressWidth order).value / 100 ≤ 1) ∧
    ((OrderDetails.progressWidth (orderWithStatus "NEW")).value = 0 ∧
      OrderDetails.progressWidth (orderWithStatus "ALLOCATED") = ⟨4691249611844266, -47⟩ ∧
      OrderDetails.progressWidth (orderWithStatus "PICKING") = ⟨4691249611844266, -46⟩ ∧
      (OrderDetails.progressWidth (orderWithStatus "COMPLETED")).value = 100) ∧
    (order.status ∈ OrderDetails.statusFlow → other.status ∈ OrderDetails.statusFlow →
      OrderDetails.currentStatusIndex order < OrderDetails.currentStatusIndex other →
      (OrderDetails.progressWidth order).value < (OrderDetails.progressWidth other).value) ∧
    ((OrderDetails.progressWidth order).value = 100 ↔ order.status = "COMPLETED") := by
  refine ⟨?_, ?_, ?_, ?_, ?_⟩
  · intro h
    rcases progressWidth_cases order with k | k | k | k | k | k
    · rw [k.2]
      norm_num [Dbl.value]
    · rw [h] at k; exact absurd k.1 (by decide)
    · rw [h] at k; exact absurd k.1 (by decide)
    · rw [h] at k; exact absurd k.1 (by decide)
    · rw [h] at k; exact absurd k.1 (by decide)
    · exact absurd h k.2.1
  · intro hflow
    rcases progressWidth_flow_value order hflow with h | h | h | h <;>
      · rw [h.1, h.2]
        norm_num
  · refine ⟨?_, by decide, by decide, ?_⟩
    · have h : OrderDetails.progressWidth (orderWithStatus "NEW") = ⟨0, 0⟩ := by decide
      rw [h]
      norm_num [Dbl.value]
    · have h : OrderDetails.progressWidth (orderWithStatus "COMPLETED") =
          ⟨7036874417766400, -46⟩ := by decide
      rw [h]
      norm_num [Dbl.value]
  · intro h1 h2 hlt
    rcases progressWidth_flow_value order h1 with a | a | a | a <;>
      rcases progressWidth_flow_value other h2 with b | b | b | b <;>
      · rw [a.1, b.1] at hlt
        rw [a.2, b.2]
        first
          | (exfalso; omega)
          | norm_num
  · rcases progressWidth_cases order with k | k | k | k | k | k
    · rw [k.2, k.1]
      constructor
      · intro h; norm_num [Dbl.value] at h
      · intro h; exact absurd h (by decide)
    · rw [k.2.2, k.1]
      constructor
      · intro h; norm_num [Dbl.value] at h
      · intro h; exact absurd h (by decide)
    · rw [k.2.2, k.1]
      constructor
      · intro h; norm_num [Dbl.value] at h
      · intro h; exact absurd h (by decide)
    · rw [k.2.2, k.1]
      constructor
      · intro h; norm_num [Dbl.value] at h
      · intro h; exact absurd h (by decide)
    · rw [k.2.2]
      constructor
      · intro _; exact k.1
      · intro _; norm_num [Dbl.value]
    · rw [k.2.2]
      constructor
      · intro h; norm_num [Dbl.value] at h
      · intro h
        exact absurd (by rw [h]; decide) k.1

/-! ## Pick status of the lines of a task -/

/-- C18: for every task and every line item of its order the status cell is Picked
exactly when the task status is DONE and Pending otherwise; the cell is the same for any
two line items and for any two tasks with the same status, so every row of the items
table of one order shows the same pick status. -/
theorem lineItemStatus_picked_iff_done (task : PickingTask) (order : Order) :
    (∀ item, TaskDetails.lineItemStatus task item = PickStatus.picked ↔
      task.status = "DONE") ∧
    (∀ item, TaskDetails.lineItemStatus task item = PickStatus.pending ↔
      task.status ≠ "DONE") ∧
    (∀ (task2 : PickingTask) (item item2 : OrderLine), task2.status = task.status →
      TaskDetails.lineItemStatus task2 item2 = TaskDetails.lineItemStatus task item) ∧
    (TaskDetails.itemRows task order).length = order.orderLineItems.length ∧
    (∀ row ∈ TaskDetails.itemRows task order,
      row.2.2 = if task.status = "DONE" then PickStatus.picked else PickStatus.pending) := by
  refine ⟨?_, ?_, ?_, ?_, ?_⟩
  · intro item
    by_cases h : task.status = "DONE" <;> simp [TaskDetails.lineItemStatus, h]
  · intro item
    by_cases h : task.status = "DONE" <;> simp [TaskDetails.lineItemStatus, h]
  · intro task2 item item2 h
    simp [TaskDetails.lineItemStatus, h]
  · simp [TaskDetails.itemRows]
  · intro row hrow
    simp only [TaskDetails.itemRows, List.mem_map] at hrow
    obtain ⟨item, _, hitem⟩ := hrow
    rw [← hitem]
    simp [TaskDetails.lineItemStatus]

/-! ## Dashboard metrics -/

theorem orZero_some (n : Nat) : orZero (some n) = n := by
  simp only [orZero]
  split_ifs with h
  · exact h.symm
  · rfl

/-- C19: for every integer quantity `q`, `isLowStock(q)` with the default threshold 10 is
true exactly when `q < 10`; `isLowStock(9)` is true and `isLowStock(10)` is false. -/
theorem isLowStock_iff_lt_ten (q : Int) :
    (isLowStock q = true ↔ q < 10) ∧ isLowStock 9 = true ∧ isLowStock 10 = false := by
  refine ⟨?_, by decide, by decide⟩
  simp [isLowStock, isLowStockAt]

/-- C20: for loaded collections `totalProducts` is the number of products,
`lowStockProducts` the number of products with `quantityInStock < 10`, `activeOrders`
the number of orders with status NEW, ALLOCATED or PICKING and `pendingTasks` the number
of tasks with status IN_PROGRESS; each metric is 0 for a collection that is not loaded;
and `lowStockProducts <= totalProducts`. -/
theorem dashboard_metrics_count (products : List Product) (orders : List Order)
    (tasks : List PickingTask) :
    Dashboard.totalProducts (some products) = products.length ∧
    Dashboard.lowStockProducts (some products) =
      products.countP (fun p => decide (p.quantityInStock < 10)) ∧
    Dashboard.activeOrders (some orders) =
      orders.countP (fun o =>
        decide (o.status = "NEW" ∨ o.status = "ALLOCATED" ∨ o.status = "PICKING")) ∧
    Dashboard.pendingTasks (some tasks) =
      tasks.countP (fun t => decide (t.status = "IN_PROGRESS")) ∧
    Dashboard.totalProducts none = 0 ∧
    Dashboard.lowStockProducts none = 0 ∧
    Dashboard.activeOrders none = 0 ∧
    Dashboard.pendingTasks none = 0 ∧
    Dashboard.lowStockProducts (some products) ≤ Dashboard.totalProducts (some products) := by
  have hlow : Dashboard.lowStockProducts (some products) =
      products.countP (fun p => decide (p.quantityInStock < 10)) := by
    simp only [Dashboard.lowStockProducts, Option.map_some', orZero_some,
      List.countP_eq_length_filter]
    rfl
  have htotal : Dashboard.totalProducts (some products) = products.length := by
    simp only [Dashboard.totalProducts, Option.map_some', orZero_some]
  refine ⟨htotal, hlow, ?_, ?_, rfl, rfl, rfl, rfl, ?_⟩
  · simp only [Dashboard.activeOrders, Option.map_some', orZero_some,
      List.countP_eq_length_filter]
    congr 2
    funext o
    by_cases h0 : o.status = "NEW"
    · simp [List.contains, List.elem, h0]
    by_cases h1 : o.status = "ALLOCATED"
    · simp [List.contains, List.elem, h1]
    by_cases h2 : o.status = "PICKING"
    · simp [List.contains, List.elem, h2]
    · have e0 : (o.status == "NEW") = false := by simpa using h0
      have e1 : (o.status == "ALLOCATED") = false := by simpa using h1
      have e2 : (o.status == "PICKING") = false := by simpa using h2
      simp [List.contains, List.elem, h0, h1, h2, e0, e1, e2]
  · simp only [Dashboard.pendingTasks, Option.map_some', orZero_some,
      List.countP_eq_length_filter]
    congr 2
  · rw [hlow, htotal]
    exact List.countP_le_length _

/-! ## Recent orders -/

/-- The embedded sort permutes its input, whatever the comparator. -/
theorem jsSort_perm {α : Type} (cmp : α → α → Int) (xs : List α) :
    (jsSort cmp xs).Perm xs :=
  List.perm_insertionSort _ xs

/-- Sorted newest first: every order is at least as recent as the ones after it. -/
theorem jsSort_newestFirst_sorted (orders : List Order) :
    (jsSort Dashboard.newestFirst orders).Pairwise (fun a b => b.createdAt ≤ a.createdAt) := by
  haveI : IsTotal Order (fun a b => Dashboard.newestFirst a b ≤ 0) :=
    ⟨fun a b => by
      simp only [Dashboard.newestFirst]
      omega⟩
  haveI : IsTrans Order (fun a b => Dashboard.newestFirst a b ≤ 0) :=
    ⟨fun a b c hab hbc => by
      simp only [Dashboard.newestFirst] at hab hbc ⊢
      omega⟩
  have h := List.sorted_insertionSort (fun a b : Order => Dashboard.newestFirst a b ≤ 0) orders
  refine List.Pairwise.imp ?_ h
  intro a b hab
  simp only [Dashboard.newestFirst] at hab
  omega

/-- C21: for every loaded list of orders (creation dates as numbers) `recentOrders` has
length `min 5 n`, is sorted by `createdAt` in non-increasing order, holds every order at
most as often as the input does, and together with the orders left out is a permutation
of the input in which every order left out is at most as recent as every order kept;
`recentOrders` is empty when the orders are not loaded. -/
theorem recentOrders_newest_five (orders : List Order) :
    (Dashboard.recentOrders (some orders)).length = min 5 orders.length ∧
    (Dashboard.recentOrders (some orders)).Pairwise (fun a b => b.createdAt ≤ a.createdAt) ∧
    (∀ o, (Dashboard.recentOrders (some orders)).count o ≤ orders.count o) ∧
    (∃ rest : List Order, (Dashboard.recentOrders (some orders) ++ rest).Perm orders ∧
      ∀ r ∈ rest, ∀ k ∈ Dashboard.recentOrders (some orders), r.createdAt ≤ k.createdAt) ∧
    Dashboard.recentOrders none = [] := by
  have hperm := jsSort_perm Dashboard.newestFirst orders
  have hsorted := jsSort_newestFirst_sorted orders
  have hsplit : (jsSort Dashboard.newestFirst orders).take 5 ++
      (jsSort Dashboard.newestFirst orders).drop 5 = jsSort Dashboard.newestFirst orders :=
    List.take_append_drop 5 _
  refine ⟨?_, ?_, ?_, ?_, rfl⟩
  · simp only [Dashboard.recentOrders, List.length_take, hperm.length_eq]
  · exact hsorted.sublist (List.take_sublist 5 _)
  · intro o
    calc (Dashboard.recentOrders (some orders)).count o
        ≤ (jsSort Dashboard.newestFirst orders).count o :=
          (List.take_sublist 5 _).count_le o
      _ = orders.count o := hperm.count_eq o
  · refine ⟨(jsSort Dashboard.newestFirst orders).drop 5, ?_, ?_⟩
    · simp only [Dashboard.recentOrders]
      rw [hsplit]
      exact hperm
    · intro r hr k hk
      rw [← hsplit] at hsorted
      exact (List.pairwise_append.mp hsorted).2.2 k hk r hr

/-! ## The `useApi` hook -/

theorem fetchData_eq {α : Type} (outcome : Settled α) (s : ApiState α) :
    fetchData outcome s =
      match settledData outcome with
      | .ok d => ⟨d, false, none⟩
      | .error err => ⟨s.data, false, some err⟩ := by
  unfold fetchData fetchStart fetchSettleCalls
  cases settledData outcome <;> rfl

/-- C22: a load sets `loading` to true (and clears `error`) when the fetch starts; when
it completes `loading` is false, and the completion writes exactly one of `data` and
`error`: on a resolved response `data` becomes the data of the response and `error` is
null, on a rejection `error` becomes the thrown error and `data` keeps its previous
value. -/
theorem fetchData_sets_data_or_error {α : Type} (outcome : Settled α) (s : ApiState α) :
    (fetchStart s).loading = true ∧
    (fetchStart s).error = none ∧
    (fetchStart s).data = s.data ∧
    (fetchData outcome s).loading = false ∧
    (fetchSettleCalls outcome).countP Setter.writesData +
      (fetchSettleCalls outcome).countP Setter.writesError = 1 ∧
    (∀ response : Response α, outcome = Settled.resolved (some response) →
      (fetchData outcome s).data = response.data ∧
      (fetchData outcome s).error = none ∧
      (fetchSettleCalls outcome).countP Setter.writesError = 0) ∧
    (∀ err : ApiError, outcome = Settled.rejected err →
      (fetchData outcome s).error = some err ∧
      (fetchData outcome s).data = s.data ∧
      (fetchSettleCalls outcome).countP Setter.writesData = 0) := by
  refine ⟨rfl, rfl, rfl, ?_, ?_, ?_, ?_⟩
  · rw [fetchData_eq]
    cases settledData outcome <;> rfl
  · unfold fetchSettleCalls
    cases settledData outcome <;> rfl
  · intro response h
    subst h
    exact ⟨rfl, rfl, rfl⟩
  · intro err h
    subst h
    exact ⟨rfl, rfl, rfl⟩

/-- C23: `refetch` resolves with the data of the response when the fetch succeeds, and
stores that same value in `data`; it rejects with the very error the fetch threw when it
fails, and records it in `error`; in both cases `loading` ends false. -/
theorem refetch_returns_or_rethrows {α : Type} (outcome : Settled α) (s : ApiState α) :
    (refetch outcome s).1.loading = false ∧
    (refetch outcome s).1 = fetchData outcome s ∧
    (∀ response : Response α, outcome = Settled.resolved (some response) →
      (refetch outcome s).2 = .ok response.data ∧
      (refetch outcome s).1.data = response.data ∧
      (refetch outcome s).1.error = none) ∧
    (∀ err : ApiError, outcome = Settled.rejected err →
      (refetch outcome s).2 = .error err ∧
      (refetch outcome s).1.error = some err ∧
      (refetch outcome s).1.data = s.data) := by
  have hstate : (refetch outcome s).1 = fetchData outcome s := rfl
  refine ⟨?_, hstate, ?_, ?_⟩
  · rw [hstate, fetchData_eq]
    cases settledData outcome <;> rfl
  · intro response h
    subst h
    exact ⟨rfl, rfl, rfl⟩
  · intro err h
    subst h
    exact ⟨rfl, rfl, rfl⟩

/-- C26: when the fetch operation resolves with `null`, as the order fetch of
`TaskDetails` does while the task is not loaded, the load does not end with `data` and
`error` both null: reading `.data` throws, `error` is set to that `TypeError`, `data` is
not written (it keeps its previous value) and `loading` is false. -/
theorem fetchData_null_response_sets_error (answer : Settled Order) (s : ApiState Order) :
    TaskDetails.orderFetch none answer = Settled.resolved none ∧
    (fetchData (TaskDetails.orderFetch none answer) s).error = some nullResponseError ∧
    (fetchData (TaskDetails.orderFetch none answer) s).data = s.data ∧
    (fetchData (TaskDetails.orderFetch none answer) s).loading = false ∧
    (fetchSettleCalls (TaskDetails.orderFetch none answer)).countP Setter.writesData = 0 ∧
    ¬ ((fetchData (TaskDetails.orderFetch none answer) ApiState.init).data = none ∧
      (fetchData (TaskDetails.orderFetch none answer) ApiState.init).error = none) := by
  refine ⟨rfl, rfl, rfl, rfl, rfl, ?_⟩
  intro h
  exact absurd h.2 (by simp [fetchData_eq, TaskDetails.orderFetch, settledData, readData])

/-! ## The polling effect -/

theorem runCleanup_clears (s : PollState) (h : PollInv s) :
    (runCleanup s).cleanup = none ∧ (runCleanup s).timers = [] ∧
      (runCleanup s).mounted = s.mounted ∧ (runCleanup s).nextId = s.nextId := by
  rcases h with ⟨_, hc, ht⟩ | ⟨_, i, hc, _, ht⟩
  · simp [runCleanup, hc, ht]
  · simp [runCleanup, clearInterval, hc, ht]

/-- The effect run on a dashboard without a live interval: the one interval it starts. -/
theorem runEffect_timers (s : PollState) (ht : s.timers = []) :
    (runEffect s).timers =
        [⟨s.nextId, 30000, [Refetch.products, Refetch.orders, Refetch.tasks]⟩] ∧
      (runEffect s).cleanup = some s.nextId ∧ (runEffect s).nextId = s.nextId + 1 ∧
      (runEffect s).mounted = s.mounted := by
  simp [runEffect, setInterval, ht]

theorem runEffect_starts_one (s : PollState) (ht : s.timers = [])
    (hm : s.mounted = true) : PollInv (runEffect s) := by
  obtain ⟨h1, h2, h3, h4⟩ := runEffect_timers s ht
  right
  exact ⟨h4.trans hm, s.nextId, h2, by omega, h1⟩

theorem pollStep_inv (s : PollState) (e : PollEvent) (h : PollInv s) : PollInv (pollStep s e) := by
  cases e with
  | mount =>
    simp only [pollStep]
    split_ifs with hm
    · exact h
    · rcases h with ⟨_, _, ht⟩ | ⟨hm2, _⟩
      · exact runEffect_starts_one _ ht rfl
      · exact absurd hm2 hm
  | rerender changed =>
    simp only [pollStep]
    split_ifs with hm
    · obtain ⟨_, ht, hmm, _⟩ := runCleanup_clears s h
      have hmounted : s.mounted = true := by
        simp only [Bool.and_eq_true] at hm
        exact hm.1
      exact runEffect_starts_one _ ht (hmm.trans hmounted)
    · exact h
  | unmount =>
    simp only [pollStep]
    split_ifs with hm
    · obtain ⟨hc, ht, _, _⟩ := runCleanup_clears s h
      left
      exact ⟨rfl, hc, ht⟩
    · exact h

theorem foldl_pollStep_inv (events : List PollEvent) (s : PollState) (h : PollInv s) :
    PollInv (events.foldl pollStep s) := by
  induction events generalizing s with
  | nil => exact h
  | cons e rest ih => exact ih _ (pollStep_inv s e h)

theorem pollRun_inv (events : List PollEvent) : PollInv (pollRun events) :=
  foldl_pollStep_inv events PollState.init (Or.inl ⟨rfl, rfl, rfl⟩)

/-- One more event after a run. -/
theorem pollRun_append (events : List PollEvent) (e : PollEvent) :
    pollRun (events ++ [e]) = pollStep (pollRun events) e := by
  simp [pollRun, List.foldl_append]

/-- A tick of the only live interval calls what that interval carries. -/
theorem tick_single (s : PollState) (t : IntervalTimer) (ht : s.timers = [t]) :
    tick t.id s = t.callback := by
  simp [tick, ht]

/-- C24: after any sequence of mounts, renders (with or without changed dependencies)
and unmounts of the dashboard: every live interval has period 30000 ms and its tick calls
the three refetches (products, orders, tasks); at most one interval is live, exactly one
while the dashboard is mounted, and none when it is not mounted, in particular after an
unmount. Mounting the unmounted dashboard does start that interval: the dashboard is
then mounted with the single live interval of period 30000 ms whose tick calls the three
refetches. A render with changed dependencies while mounted clears the live interval (its
tick calls nothing any more) and starts a fresh one of the same period and callback; a
render with unchanged dependencies changes nothing. -/
theorem polling_one_timer_while_mounted (events : List PollEvent) :
    (∀ t ∈ (pollRun events).timers,
      t.period = 30000 ∧
      tick t.id (pollRun events) = [Refetch.products, Refetch.orders, Refetch.tasks]) ∧
    (pollRun events).timers.length ≤ 1 ∧
    ((pollRun events).mounted = true → (pollRun events).timers.length = 1) ∧
    ((pollRun events).mounted = false → (pollRun events).timers = []) ∧
    (pollRun (events ++ [PollEvent.unmount])).timers = [] ∧
    (pollRun (events ++ [PollEvent.unmount])).mounted = false ∧
    ((pollRun events).mounted = false →
      (pollRun (events ++ [PollEvent.mount])).mounted = true ∧
      (pollRun (events ++ [PollEvent.mount])).timers =
        [⟨(pollRun events).nextId, 30000,
          [Refetch.products, Refetch.orders, Refetch.tasks]⟩] ∧
      tick (pollRun events).nextId (pollRun (events ++ [PollEvent.mount])) =
        [Refetch.products, Refetch.orders, Refetch.tasks]) ∧
    ((pollRun events).mounted = true →
      (pollRun (events ++ [PollEvent.rerender true])).mounted = true ∧
      (pollRun (events ++ [PollEvent.rerender true])).timers =
        [⟨(pollRun events).nextId, 30000,
          [Refetch.products, Refetch.orders, Refetch.tasks]⟩] ∧
      (∀ t ∈ (pollRun events).timers,
        tick t.id (pollRun (events ++ [PollEvent.rerender true])) = []) ∧
      pollRun (events ++ [PollEvent.rerender false]) = pollRun events) := by
  have hunmounted : (pollRun (events ++ [PollEvent.unmount])).mounted = false := by
    rw [pollRun_append]
    simp only [pollStep]
    split_ifs with hm
    · rfl
    · simpa using hm
  have hafter := pollRun_inv (events ++ [PollEvent.unmount])
  have hcleared : (pollRun (events ++ [PollEvent.unmount])).timers = [] := by
    rcases hafter with ⟨_, _, h⟩ | ⟨h, _⟩
    · exact h
    · rw [hunmounted] at h
      cases h
  have hmount : (pollRun events).mounted = false →
      (pollRun (events ++ [PollEvent.mount])).mounted = true ∧
      (pollRun (events ++ [PollEvent.mount])).timers =
        [⟨(pollRun events).nextId, 30000,
          [Refetch.products, Refetch.orders, Refetch.tasks]⟩] ∧
      tick (pollRun events).nextId (pollRun (events ++ [PollEvent.mount])) =
        [Refetch.products, Refetch.orders, Refetch.tasks] := by
    intro hm
    have ht : (pollRun events).timers = [] := by
      rcases pollRun_inv events with ⟨_, _, h⟩ | ⟨h, _⟩
      · exact h
      · rw [hm] at h
        cases h
    obtain ⟨h1, _, _, h4⟩ := runEffect_timers { pollRun events with mounted := true } ht
    have hstep : pollRun (events ++ [PollEvent.mount]) =
        runEffect { pollRun events with mounted := true } := by
      rw [pollRun_append]
      simp [pollStep, hm]
    rw [hstep]
    exact ⟨h4, h1, tick_single _ ⟨(pollRun events).nextId, 30000, _⟩ h1⟩
  have hrender : (pollRun events).mounted = true →
      (pollRun (events ++ [PollEvent.rerender true])).mounted = true ∧
      (pollRun (events ++ [PollEvent.rerender true])).timers =
        [⟨(pollRun events).nextId, 30000,
          [Refetch.products, Refetch.orders, Refetch.tasks]⟩] ∧
      (∀ t ∈ (pollRun events).timers,
        tick t.id (pollRun (events ++ [PollEvent.rerender true])) = []) ∧
      pollRun (events ++ [PollEvent.rerender false]) = pollRun events := by
    intro hm
    obtain ⟨_, ht, hmm, hid⟩ := runCleanup_clears (pollRun events) (pollRun_inv events)
    obtain ⟨h1, _, _, h4⟩ := runEffect_timers (runCleanup (pollRun events)) ht
    have hstep : pollRun (events ++ [PollEvent.rerender true]) =
        runEffect (runCleanup (pollRun events)) := by
      rw [pollRun_append]
      simp [pollStep, hm]
    rw [hstep, h1, hid]
    refine ⟨h4.trans (hmm.trans hm), rfl, ?_, ?_⟩
    · intro t htm
      rcases pollRun_inv events with ⟨hm2, _, _⟩ | ⟨_, i, _, hlt, hti⟩
      · rw [hm] at hm2
        cases hm2
      · rw [hti, List.mem_singleton] at htm
        subst htm
        have hne : ¬ (pollRun events).nextId = i := by omega
        simp [tick, h1, hid, hne]
    · rw [pollRun_append]
      simp [pollStep]
  rcases pollRun_inv events with ⟨hm, _, ht⟩ | ⟨hm, i, _, _, ht⟩
  · refine ⟨?_, ?_, ?_, ?_, hcleared, hunmounted, hmount, hrender⟩
    · intro t htm
      rw [ht] at htm
      cases htm
    · simp [ht]
    · intro h
      rw [hm] at h
      cases h
    · intro _
      exact ht
  · refine ⟨?_, ?_, ?_, ?_, hcleared, hunmounted, hmount, hrender⟩
    · intro t htm
      rw [ht, List.mem_singleton] at htm
      subst htm
      exact ⟨rfl, tick_single _ _ ht⟩
    · simp [ht]
    · intro _
      simp [ht]
    · intro h
      rw [hm] at h
      cases h

/-- Witness for C24: mounting the fresh dashboard starts interval 1 with period 30000 ms
and the three refetches; the render after it replaces interval 1 by interval 2, and the
tick of interval 1 calls nothing any more; the unmount after that leaves no interval. -/
theorem polling_one_timer_while_mounted_witness :
    pollRun [PollEvent.mount] =
      ⟨true, [⟨1, 30000, [Refetch.products, Refetch.orders, Refetch.tasks]⟩], some 1, 2⟩ ∧
    tick 1 (pollRun [PollEvent.mount]) = [Refetch.products, Refetch.orders, Refetch.tasks] ∧
    (pollRun [PollEvent.mount, PollEvent.rerender true]).timers =
      [⟨2, 30000, [Refetch.products, Refetch.orders, Refetch.tasks]⟩] ∧
    tick 1 (pollRun [PollEvent.mount, PollEvent.rerender true]) = [] ∧
    (pollRun [PollEvent.mount, PollEvent.rerender true, PollEvent.unmount]).timers = [] :=
  ⟨by decide,
    ((polling_one_timer_while_mounted []).2.2.2.2.2.2.1 rfl).2.2,
    ((polling_one_timer_while_mounted [PollEvent.mount]).2.2.2.2.2.2.2 rfl).2.1,
    ((polling_one_timer_while_mounted [PollEvent.mount]).2.2.2.2.2.2.2 rfl).2.2.1
      ⟨1, 30000, [Refetch.products, Refetch.orders, Refetch.tasks]⟩ (by decide),
    (polling_one_timer_while_mounted [PollEvent.mount, PollEvent.rerender true]).2.2.2.2.1⟩

/-! ## Generated SKUs -/

/-- C25, the code at the failing input: the name `ab<TAB>cd` survives the cleaning (a tab
is in the class the regular expression keeps) and is not cut by the split at the space
character, so the result is `AB<TAB>CD123`, which is not empty and does not match the SKU
pattern of the product forms; the same happens with several words. -/
theorem generateSKU_keeps_other_white_space :
    generateSKU "ab\tcd" 123 = "AB\tCD123" ∧
    generateSKU "ab\tcd" 123 ≠ "" ∧
    matchesSkuPattern (generateSKU "ab\tcd" 123) = false ∧
    generateSKU "a\tb c" 7 = "A\tC007" ∧
    matchesSkuPattern (generateSKU "a\tb c" 7) = false ∧
    matchesSkuPattern (generateSKU "Blue Widget Pro" 7) = true := by
  decide

/-! ## A throwing success callback -/

/-- The hook never ends an `execute` run with `loading` set. -/
theorem execute_loading_false {α : Type} (apiCall : List Effect × Except ApiError α)
    (opts : ExecOptions α) : (execute apiCall opts).state.loading = false := by
  have hcatch : ∀ (before : List Effect) (err : ApiError),
      (executeCatch opts before err).state.loading = false := by
    intro before err
    unfold executeCatch
    cases h : opts.onError with
    | none => rfl
    | some cb =>
      simp only []
      rcases hcb : cb err with ⟨fx, r⟩
      cases r <;> rfl
  obtain ⟨fx, r⟩ := apiCall
  cases r with
  | error err => exact hcatch fx err
  | ok data =>
    unfold execute
    simp only []
    generalize (match opts.onSuccess with
      | some f => f data
      | none => ([], Except.ok ())) = cb
    obtain ⟨cfx, r2⟩ := cb
    cases r2 with
    | error err => exact hcatch (fx ++ cfx) err
    | ok u => rfl

/-- The toast the `catch` block shows, if any. -/
theorem executeCatch_no_onError {α : Type} (opts : ExecOptions α) (before : List Effect)
    (err : ApiError) (hnone : opts.onError = none) :
    executeCatch opts before err =
      ⟨⟨false, some err⟩, .error err,
        before ++ (if opts.showErrorToast then
          [Effect.toastError ((truthyString err.responseMessage).getD opts.errorMessage)]
        else [])⟩ := by
  unfold executeCatch
  simp [hnone]

theorem executeCatch_onError_returns {α : Type} (opts : ExecOptions α) (before efx : List Effect)
    (err : ApiError) (cb : ApiError → List Effect × Except ApiError Unit)
    (hsome : opts.onError = some cb) (hret : cb err = (efx, .ok ())) :
    executeCatch opts before err =
      ⟨⟨false, some err⟩, .error err,
        before ++ efx ++ (if opts.showErrorToast then
          [Effect.toastError ((truthyString err.responseMessage).getD opts.errorMessage)]
        else [])⟩ := by
  unfold executeCatch
  simp [hsome, hret]

theorem executeCatch_state_and_result {α : Type} (opts : ExecOptions α) (before : List Effect)
    (err : ApiError) :
    (executeCatch opts before err).state = ⟨false, some err⟩ ∧
    ∃ e, (executeCatch opts before err).result = .error e := by
  unfold executeCatch
  cases h : opts.onError with
  | none => exact ⟨rfl, err, rfl⟩
  | some cb =>
    simp only []
    rcases hcb : cb err with ⟨fx, r⟩
    cases r with
    | ok u => exact ⟨rfl, err, rfl⟩
    | error e2 => exact ⟨rfl, e2, rfl⟩

/-- C27: when the API call succeeds with `data` but the `onSuccess` callback throws
`err`, `execute` ends as a failure: the hook records `err` in `error` with `loading`
false and the run is rejected, never resolved with the data. With no `onError` option,
or with one that returns normally, it rejects with `err` itself, the effects of `onError`
called with `err` follow those of the request and of the callback, and the error toast
(the response message of `err`, else `errorMessage`) is shown exactly when
`showErrorToast` is set. In every run of `execute`, whatever the call and the options,
`loading` ends false. -/
theorem execute_onSuccess_throw_is_failure {α : Type} (fx cfx : List Effect) (data : α)
    (opts : ExecOptions α) (f : α → List Effect × Except ApiError Unit) (err : ApiError)
    (hcb : opts.onSuccess = some f) (hthrow : f data = (cfx, .error err)) :
    (execute (fx, .ok data) opts).state = ⟨false, some err⟩ ∧
    (∃ e, (execute (fx, .ok data) opts).result = .error e) ∧
    (opts.onError = none →
      (execute (fx, .ok data) opts).result = .error err ∧
      (execute (fx, .ok data) opts).effects =
        fx ++ cfx ++ (if opts.showErrorToast then
          [Effect.toastError ((truthyString err.responseMessage).getD opts.errorMessage)]
        else [])) ∧
    (∀ (cb : ApiError → List Effect × Except ApiError Unit) (efx : List Effect),
      opts.onError = some cb → cb err = (efx, .ok ()) →
      (execute (fx, .ok data) opts).result = .error err ∧
      (execute (fx, .ok data) opts).effects =
        fx ++ cfx ++ efx ++ (if opts.showErrorToast then
          [Effect.toastError ((truthyString err.responseMessage).getD opts.errorMessage)]
        else [])) ∧
    (∀ (apiCall : List Effect × Except ApiError α) (other : ExecOptions α),
      (execute apiCall other).state.loading = false) := by
  have hexec : execute (fx, .ok data) opts = executeCatch opts (fx ++ cfx) err := by
    unfold execute
    simp [hcb, hthrow]
  rw [hexec]
  refine ⟨(executeCatch_state_and_result opts _ err).1,
    (executeCatch_state_and_result opts _ err).2, ?_, ?_, ?_⟩
  · intro hnone
    rw [executeCatch_no_onError opts _ err hnone]
    exact ⟨rfl, rfl⟩
  · intro cb efx hsome hret
    rw [executeCatch_onError_returns opts _ efx err cb hsome hret]
    exact ⟨rfl, rfl⟩
  · intro apiCall other
    exact execute_loading_false apiCall other

/-- Witness for C27: a create call that succeeds with order 7 while the success callback
throws after navigating: the run is rejected with the thrown value and the default error
toast is shown instead of the success toast. -/
theorem execute_onSuccess_throw_is_failure_witness :
    (execute ([Effect.request (Request.createOrder ⟨[⟨"ABC", 3⟩]⟩)],
        .ok (orderWithStatus "NEW")) throwingOptions).result =
      .error ⟨"callback failed", none⟩ ∧
    (execute ([Effect.request (Request.createOrder ⟨[⟨"ABC", 3⟩]⟩)],
        .ok (orderWithStatus "NEW")) throwingOptions).effects =
      [Effect.request (Request.createOrder ⟨[⟨"ABC", 3⟩]⟩), Effect.navigate "/orders/1",
        Effect.toastError "An error occurred"] :=
  have h := execute_onSuccess_throw_is_failure
    [Effect.request (Request.createOrder ⟨[⟨"ABC", 3⟩]⟩)]
    [Effect.navigate "/orders/1"] (orderWithStatus "NEW") throwingOptions
    (fun order => ([Effect.navigate ("/orders/" ++ toString order.id)],
      .error ⟨"callback failed", none⟩))
    ⟨"callback failed", none⟩ rfl (by simp [orderWithStatus]; decide)
  ⟨(h.2.2.1 rfl).1, (h.2.2.1 rfl).2.trans (by decide)⟩

/-! ## The colour of the current step -/

/-- For a cancelled order `indexOf` finds nothing. -/
theorem currentStatusIndex_cancelled (order : Order)
    (hc : OrderDetails.isCancelled order = true) :
    OrderDetails.currentStatusIndex order = -1 := by
  have hs : order.status = "CANCELLED" := by
    simpa [OrderDetails.isCancelled] using hc
  rcases currentStatusIndex_cases order with h | h | h | h | h
  · rw [hs] at h; exact absurd h.1 (by decide)
  · rw [hs] at h; exact absurd h.1 (by decide)
  · rw [hs] at h; exact absurd h.1 (by decide)
  · rw [hs] at h; exact absurd h.1 (by decide)
  · exact h.2

/-- For a cancelled order every step after the first is red with the X, the first is
gray with the clock. -/
theorem cancelled_rendering (order : Order) (st : String) (i : Nat)
    (hc : OrderDetails.isCancelled order = true) :
    OrderDetails.getStatusColor order st i = (if 0 < i then StepColor.red else StepColor.gray) ∧
    OrderDetails.getStatusIcon order st i = (if 0 < i then StepIcon.x else StepIcon.clock) := by
  have hidx := currentStatusIndex_cancelled order hc
  unfold OrderDetails.getStatusColor OrderDetails.getStatusIcon
  rw [hidx, hc]
  by_cases hi : 0 < i
  · simp [hi]
  · have h0 : i = 0 := by omega
    subst h0
    simp

/-- C28: for every order, whatever its status string, and every step index,
`getStatusColor` never returns the blue colour of a current step, so a step is rendered
only as cancelled (red), done (green) or pending (gray); and `getStatusIcon` agrees with
it: X exactly with red, check exactly with green, clock exactly with gray. -/
theorem getStatusColor_never_blue (order : Order) (st : String) (i : Nat) :
    OrderDetails.getStatusColor order st i ≠ StepColor.blue ∧
    (OrderDetails.getStatusColor order st i = StepColor.red ∨
      OrderDetails.getStatusColor order st i = StepColor.green ∨
      OrderDetails.getStatusColor order st i = StepColor.gray) ∧
    (OrderDetails.getStatusIcon order st i = StepIcon.x ↔
      OrderDetails.getStatusColor order st i = StepColor.red) ∧
    (OrderDetails.getStatusIcon order st i = StepIcon.check ↔
      OrderDetails.getStatusColor order st i = StepColor.green) ∧
    (OrderDetails.getStatusIcon order st i = StepIcon.clock ↔
      OrderDetails.getStatusColor order st i = StepColor.gray) := by
  cases hc : OrderDetails.isCancelled order with
  | false =>
    rw [getStatusColor_not_cancelled order st i hc, getStatusIcon_not_cancelled order st i hc]
    by_cases hle : (i : Int) ≤ OrderDetails.currentStatusIndex order <;> simp [hle]
  | true =>
    obtain ⟨hcol, hicon⟩ := cancelled_rendering order st i hc
    rw [hcol, hicon]
    by_cases hi : 0 < i <;> simp [hi]

/-! ## Filter tabs of the orders list -/

/-- With the filter ALL nothing is dropped. -/
theorem filter_all (orders : List Order) :
    orders.filter (fun order => if "ALL" == "ALL" then true else order.status == "ALL") =
      orders := by
  simp

/-- With another filter exactly the orders of that status are kept. -/
theorem filter_status (orders : List Order) (f : String) (hf : f ≠ "ALL") :
    orders.filter (fun order => if f == "ALL" then true else order.status == f) =
      orders.filter (fun order => order.status == f) := by
  congr 1
  funext order
  simp [hf]

/-- Orders with known statuses fall into exactly one of the five per-status counts. -/
theorem known_status_counts_sum (orders : List Order)
    (hknown : ∀ o ∈ orders, o.status = "NEW" ∨ o.status = "ALLOCATED" ∨ o.status = "PICKING" ∨
      o.status = "COMPLETED" ∨ o.status = "CANCELLED") :
    (orders.filter (fun o => o.status == "NEW")).length +
      (orders.filter (fun o => o.status == "ALLOCATED")).length +
      (orders.filter (fun o => o.status == "PICKING")).length +
      (orders.filter (fun o => o.status == "COMPLETED")).length +
      (orders.filter (fun o => o.status == "CANCELLED")).length = orders.length := by
  induction orders with
  | nil => rfl
  | cons x xs ih =>
    have hxs := ih (fun o ho => hknown o (List.mem_cons_of_mem x ho))
    rcases hknown x (List.mem_cons_self x xs) with h | h | h | h | h <;>
      · simp only [List.filter_cons, h, List.length_cons]
        simp only [show ("NEW" == "NEW") = true from by decide,
          show ("NEW" == "ALLOCATED") = false from by decide,
          show ("NEW" == "PICKING") = false from by decide,
          show ("NEW" == "COMPLETED") = false from by decide,
          show ("NEW" == "CANCELLED") = false from by decide,
          show ("ALLOCATED" == "NEW") = false from by decide,
          show ("ALLOCATED" == "ALLOCATED") = true from by decide,
          show ("ALLOCATED" == "PICKING") = false from by decide,
          show ("ALLOCATED" == "COMPLETED") = false from by decide,
          show ("ALLOCATED" == "CANCELLED") = false from by decide,
          show ("PICKING" == "NEW") = false from by decide,
          show ("PICKING" == "ALLOCATED") = false from by decide,
          show ("PICKING" == "PICKING") = true from by decide,
          show ("PICKING" == "COMPLETED") = false from by decide,
          show ("PICKING" == "CANCELLED") = false from by decide,
          show ("COMPLETED" == "NEW") = false from by decide,
          show ("COMPLETED" == "ALLOCATED") = false from by decide,
          show ("COMPLETED" == "PICKING") = false from by decide,
          show ("COMPLETED" == "COMPLETED") = true from by decide,
          show ("COMPLETED" == "CANCELLED") = false from by decide,
          show ("CANCELLED" == "NEW") = false from by decide,
          show ("CANCELLED" == "ALLOCATED") = false from by decide,
          show ("CANCELLED" == "PICKING") = false from by decide,
          show ("CANCELLED" == "COMPLETED") = false from by decide,
          show ("CANCELLED" == "CANCELLED") = true from by decide,
          if_true, Bool.false_eq_true, if_false, List.length_cons]
        omega

/-- C29: for every loaded list of orders, every filter option `f` of the six tabs and any
sort field and direction, whatever order the built-in sort settles on (it only has to
permute its input) and whatever the built-in `toLowerCase` does: the number of rows of `filteredOrders` is `statusCounts[f]`; the rows
are exactly the orders whose status is `f` (all orders for ALL), each as often as in the
input; and when every status is one of the five known values, the five per-status counts
add up to `statusCounts.ALL`. -/
theorem filteredOrders_matches_statusCounts
    (sortFn : (Order → Order → Int) → List Order → List Order)
    (hperm : ∀ (cmp : Order → Order → Int) (l : List Order), (sortFn cmp l).Perm l)
    (lower : String → String) (orders : List Order) (f sortBy sortOrder : String)
    (hf : f ∈ OrdersList.statusOptions) :
    OrdersList.statusCounts (some orders) f =
      some (OrdersList.filteredOrdersWith sortFn lower (some orders) f sortBy sortOrder).length ∧
    (∀ o, o ∈ OrdersList.filteredOrdersWith sortFn lower (some orders) f sortBy sortOrder ↔
      o ∈ orders ∧ (f = "ALL" ∨ o.status = f)) ∧
    (∀ o, f = "ALL" ∨ o.status = f →
      (OrdersList.filteredOrdersWith sortFn lower (some orders) f sortBy sortOrder).count o =
        orders.count o) ∧
    ((∀ o ∈ orders, o.status = "NEW" ∨ o.status = "ALLOCATED" ∨ o.status = "PICKING" ∨
        o.status = "COMPLETED" ∨ o.status = "CANCELLED") →
      (OrdersList.statusCounts (some orders) "NEW").getD 0 +
        (OrdersList.statusCounts (some orders) "ALLOCATED").getD 0 +
        (OrdersList.statusCounts (some orders) "PICKING").getD 0 +
        (OrdersList.statusCounts (some orders) "COMPLETED").getD 0 +
        (OrdersList.statusCounts (some orders) "CANCELLED").getD 0 =
      (OrdersList.statusCounts (some orders) "ALL").getD 0) := by
  have hp := hperm (OrdersList.compareOrders lower sortBy sortOrder)
    (orders.filter (fun order => if f == "ALL" then true else order.status == f))
  have hdef : OrdersList.filteredOrdersWith sortFn lower (some orders) f sortBy sortOrder =
      sortFn (OrdersList.compareOrders lower sortBy sortOrder)
        (orders.filter (fun order => if f == "ALL" then true else order.status == f)) := rfl
  refine ⟨?_, ?_, ?_, ?_⟩
  · rw [hdef, hp.length_eq]
    by_cases hall : f = "ALL"
    · subst hall
      rw [filter_all]
      rfl
    · rw [filter_status orders f hall]
      have hkey : (f == "NEW" || f == "ALLOCATED" || f == "PICKING" || f == "COMPLETED" ||
          f == "CANCELLED") = true := by
        simp only [OrdersList.statusOptions, List.mem_cons, List.mem_singleton,
          List.not_mem_nil, or_false] at hf
        rcases hf with h | h | h | h | h | h
        · exact absurd h hall
        all_goals (subst h; decide)
      simp only [OrdersList.statusCounts, hkey, if_true]
      have hne : (f == "ALL") = false := by simpa using hall
      simp [hne]
  · intro o
    rw [hdef, hp.mem_iff, List.mem_filter]
    by_cases hall : f = "ALL"
    · simp [hall]
    · simp [hall]
  · intro o ho
    rw [hdef, hp.count_eq, List.count_filter]
    rcases ho with h | h
    · simp [h]
    · by_cases hall : f = "ALL"
      · simp [hall]
      · simp [hall, h]
  · intro hknown
    have hsum := known_status_counts_sum orders hknown
    simpa [OrdersList.statusCounts] using hsum

/-- Witness for C29: three orders, the tab NEW, sorted by id ascending with the embedded
sort: two rows, as the tab count says. -/
theorem filteredOrders_matches_statusCounts_witness :
    OrdersList.statusCounts
        (some [⟨1, "NEW", 30, []⟩, ⟨2, "PICKING", 20, []⟩, ⟨3, "NEW", 10, []⟩]) "NEW" =
      some (OrdersList.filteredOrders sampleLower
        (some [⟨1, "NEW", 30, []⟩, ⟨2, "PICKING", 20, []⟩, ⟨3, "NEW", 10, []⟩])
        "NEW" "id" "asc").length ∧
    OrdersList.statusCounts
        (some [⟨1, "NEW", 30, []⟩, ⟨2, "PICKING", 20, []⟩, ⟨3, "NEW", 10, []⟩]) "NEW" = some 2 :=
  ⟨(filteredOrders_matches_statusCounts jsSort (fun cmp l => jsSort_perm cmp l) sampleLower
      [⟨1, "NEW", 30, []⟩, ⟨2, "PICKING", 20, []⟩, ⟨3, "NEW", 10, []⟩] "NEW" "id" "asc"
      (by decide)).1, by decide⟩

/-! ## The sort comparators of the lists -/

/-- No text is below itself. -/
theorem unitsLt_self (a : List Nat) : unitsLt a a = false := by
  induction a with
  | nil => rfl
  | cons x xs ih => simp [unitsLt, ih]

/-- Two different texts are ordered one way and not the other. -/
theorem unitsLt_or_gt_of_ne (a b : List Nat) (hne : a ≠ b) :
    (unitsLt a b = true ∧ unitsLt b a = false) ∨
    (unitsLt a b = false ∧ unitsLt b a = true) := by
  induction a generalizing b with
  | nil =>
    cases b with
    | nil => exact absurd rfl hne
    | cons y ys => left; exact ⟨rfl, rfl⟩
  | cons x xs ih =>
    cases b with
    | nil => right; exact ⟨rfl, rfl⟩
    | cons y ys =>
      rcases Nat.lt_trichotomy x y with h | h | h
      · left
        simp [unitsLt, h, Nat.lt_asymm h]
      · subst h
        have hne2 : xs ≠ ys := fun e => hne (by rw [e])
        simpa [unitsLt] using ih ys hne2
      · right
        simp [unitsLt, h, Nat.lt_asymm h]

/-- Two different sort values of the same kind are ordered one way and not the other. -/
theorem SortKey.lt_or_gt_of_ne (ka kb : SortKey) (hkind : SortKey.sameKind ka kb = true)
    (hne : ka ≠ kb) :
    (SortKey.lt ka kb = true ∧ SortKey.lt kb ka = false) ∨
    (SortKey.lt ka kb = false ∧ SortKey.lt kb ka = true) := by
  cases ka with
  | num a =>
    cases kb with
    | num b =>
      have hab : a ≠ b := fun h => hne (by rw [h])
      rcases lt_trichotomy a b with h | h | h
      · left
        simp [SortKey.lt, h, not_lt.mpr (le_of_lt h)]
      · exact absurd h hab
      · right
        simp [SortKey.lt, h, not_lt.mpr (le_of_lt h)]
    | str b => simp [SortKey.sameKind] at hkind
  | str a =>
    cases kb with
    | num b => simp [SortKey.sameKind] at hkind
    | str b =>
      have hab : a ≠ b := fun h => hne (by rw [h])
      simpa [SortKey.lt] using unitsLt_or_gt_of_ne a b hab

/-- No sort value is below itself. -/
theorem SortKey.lt_self (k : SortKey) : SortKey.lt k k = false := by
  cases k <;> simp [SortKey.lt, unitsLt_self]

/-- The text branch of a comparator always yields a text. -/
theorem textKey_sameKind (lower : String → String) (x y : Option String) :
    SortKey.sameKind (textKey lower x) (textKey lower y) = true := by
  cases x <;> cases y <;> rfl

theorem ordersSortKey_sameKind (lower : String → String) (sortBy : String) (a b : Order) :
    SortKey.sameKind (OrdersList.sortKey lower sortBy a) (OrdersList.sortKey lower sortBy b) =
      true := by
  unfold OrdersList.sortKey
  by_cases h1 : sortBy = "createdAt"
  · simp [h1, SortKey.sameKind]
  · by_cases h2 : sortBy = "id"
    · simp [h2, SortKey.sameKind]
    · simp [h1, h2, textKey_sameKind]

theorem productsSortKey_sameKind (lower : String → String) (sortBy : String)
    (p q : Product) :
    SortKey.sameKind (ProductsList.sortKey lower sortBy p) (ProductsList.sortKey lower sortBy q) =
      true := by
  unfold ProductsList.sortKey
  by_cases h1 : sortBy = "quantityInStock"
  · simp [h1, SortKey.sameKind]
  · simp [h1, textKey_sameKind]

theorem tasksSortKey_sameKind (lower : String → String) (sortBy : String)
    (t u : PickingTask) :
    SortKey.sameKind (PickingTasksList.sortKey lower sortBy t)
      (PickingTasksList.sortKey lower sortBy u) = true := by
  unfold PickingTasksList.sortKey
  by_cases h1 : sortBy = "id"
  · simp [h1, SortKey.sameKind]
  · simp [h1, textKey_sameKind]

/-- The last statement of the comparators on two sort values of the same kind: never 0,
antisymmetric on different values with the sign following the direction, and -1 both
ways on equal values. -/
theorem compareValues_law (sortOrder : String) (ka kb : SortKey)
    (hkind : SortKey.sameKind ka kb = true) :
    compareValues sortOrder ka kb ≠ 0 ∧
    (ka ≠ kb →
      compareValues sortOrder ka kb = - compareValues sortOrder kb ka ∧
      (sortOrder = "asc" → (compareValues sortOrder ka kb = 1 ↔ SortKey.lt kb ka = true)) ∧
      (sortOrder ≠ "asc" → (compareValues sortOrder ka kb = 1 ↔ SortKey.lt ka kb = true))) ∧
    (ka = kb → compareValues sortOrder ka kb = -1 ∧ compareValues sortOrder kb ka = -1) := by
  refine ⟨?_, ?_, ?_⟩
  · unfold compareValues
    split_ifs <;> decide
  · intro hne
    by_cases hasc : sortOrder = "asc"
    · rcases SortKey.lt_or_gt_of_ne ka kb hkind hne with ⟨h1, h2⟩ | ⟨h1, h2⟩ <;>
        simp [compareValues, hasc, h1, h2]
    · rcases SortKey.lt_or_gt_of_ne ka kb hkind hne with ⟨h1, h2⟩ | ⟨h1, h2⟩ <;>
        simp [compareValues, hasc, h1, h2]
  · intro heq
    subst heq
    by_cases hasc : sortOrder = "asc" <;>
      simp [compareValues, hasc, SortKey.lt_self]

/-- C30: the comparator of `OrdersList`, and in the same way those of `ProductsList` and
`PickingTasksList`, never returns 0 on two rows, whatever the sort field, the direction
and the built-in `toLowerCase`: for rows with different sort values it is antisymmetric,
returning 1 exactly when the first row has the larger value in ascending order and the
smaller one in descending order; for rows with equal sort values it returns -1 for
`(a, b)` and for `(b, a)`. The sort value is the creation date or the id as a number, the
stock figure as a number, and for a text field the code units of the lower-cased text; so
two orders with the same creation date, two products with the same stock figure or with
names that differ in case only, and two tasks with the same id get -1 both ways, while
an older order against a newer one gets -1 and 1 ascending and 1 and -1 descending. -/
theorem list_comparators_never_zero (lower : String → String) (sortBy sortOrder : String)
    (a b : Order) (p q : Product) (t u : PickingTask) :
    (OrdersList.compareOrders lower sortBy sortOrder a b ≠ 0 ∧
      (OrdersList.sortKey lower sortBy a ≠ OrdersList.sortKey lower sortBy b →
        OrdersList.compareOrders lower sortBy sortOrder a b =
          - OrdersList.compareOrders lower sortBy sortOrder b a ∧
        (sortOrder = "asc" → (OrdersList.compareOrders lower sortBy sortOrder a b = 1 ↔
          SortKey.lt (OrdersList.sortKey lower sortBy b) (OrdersList.sortKey lower sortBy a) =
            true)) ∧
        (sortOrder ≠ "asc" → (OrdersList.compareOrders lower sortBy sortOrder a b = 1 ↔
          SortKey.lt (OrdersList.sortKey lower sortBy a) (OrdersList.sortKey lower sortBy b) =
            true))) ∧
      (OrdersList.sortKey lower sortBy a = OrdersList.sortKey lower sortBy b →
        OrdersList.compareOrders lower sortBy sortOrder a b = -1 ∧
        OrdersList.compareOrders lower sortBy sortOrder b a = -1)) ∧
    (ProductsList.compareProducts lower sortBy sortOrder p q ≠ 0 ∧
      (ProductsList.sortKey lower sortBy p ≠ ProductsList.sortKey lower sortBy q →
        ProductsList.compareProducts lower sortBy sortOrder p q =
          - ProductsList.compareProducts lower sortBy sortOrder q p ∧
        (sortOrder = "asc" → (ProductsList.compareProducts lower sortBy sortOrder p q = 1 ↔
          SortKey.lt (ProductsList.sortKey lower sortBy q)
            (ProductsList.sortKey lower sortBy p) = true)) ∧
        (sortOrder ≠ "asc" → (ProductsList.compareProducts lower sortBy sortOrder p q = 1 ↔
          SortKey.lt (ProductsList.sortKey lower sortBy p)
            (ProductsList.sortKey lower sortBy q) = true))) ∧
      (ProductsList.sortKey lower sortBy p = ProductsList.sortKey lower sortBy q →
        ProductsList.compareProducts lower sortBy sortOrder p q = -1 ∧
        ProductsList.compareProducts lower sortBy sortOrder q p = -1)) ∧
    (PickingTasksList.compareTasks lower sortBy sortOrder t u ≠ 0 ∧
      (PickingTasksList.sortKey lower sortBy t ≠ PickingTasksList.sortKey lower sortBy u →
        PickingTasksList.compareTasks lower sortBy sortOrder t u =
          - PickingTasksList.compareTasks lower sortBy sortOrder u t ∧
        (sortOrder = "asc" → (PickingTasksList.compareTasks lower sortBy sortOrder t u = 1 ↔
          SortKey.lt (PickingTasksList.sortKey lower sortBy u)
            (PickingTasksList.sortKey lower sortBy t) = true)) ∧
        (sortOrder ≠ "asc" → (PickingTasksList.compareTasks lower sortBy sortOrder t u = 1 ↔
          SortKey.lt (PickingTasksList.sortKey lower sortBy t)
            (PickingTasksList.sortKey lower sortBy u) = true))) ∧
      (PickingTasksList.sortKey lower sortBy t = PickingTasksList.sortKey lower sortBy u →
        PickingTasksList.compareTasks lower sortBy sortOrder t u = -1 ∧
        PickingTasksList.compareTasks lower sortBy sortOrder u t = -1)) ∧
    (OrdersList.sortKey lower "createdAt" a = SortKey.num a.createdAt ∧
      OrdersList.sortKey lower "id" a = SortKey.num (a.id : Int) ∧
      OrdersList.sortKey lower "status" a = SortKey.str (utf16 (lower a.status)) ∧
      ProductsList.sortKey lower "quantityInStock" p = SortKey.num p.quantityInStock ∧
      ProductsList.sortKey lower "name" p = SortKey.str (utf16 (lower p.name)) ∧
      ProductsList.sortKey lower "sku" p = SortKey.str (utf16 (lower p.sku)) ∧
      ProductsList.sortKey lower "locationCode" p = SortKey.str (utf16 (lower p.locationCode)) ∧
      PickingTasksList.sortKey lower "id" t = SortKey.num (t.id : Int) ∧
      PickingTasksList.sortKey lower "status" t = SortKey.str (utf16 (lower t.status))) ∧
    (a.createdAt < b.createdAt →
      OrdersList.compareOrders lower "createdAt" "asc" a b = -1 ∧
      OrdersList.compareOrders lower "createdAt" "asc" b a = 1 ∧
      OrdersList.compareOrders lower "createdAt" "desc" a b = 1 ∧
      OrdersList.compareOrders lower "createdAt" "desc" b a = -1) ∧
    (a.createdAt = b.createdAt →
      OrdersList.compareOrders lower "createdAt" sortOrder a b = -1 ∧
      OrdersList.compareOrders lower "createdAt" sortOrder b a = -1) ∧
    (lower a.status = lower b.status →
      OrdersList.compareOrders lower "status" sortOrder a b = -1 ∧
      OrdersList.compareOrders lower "status" sortOrder b a = -1) ∧
    (p.quantityInStock = q.quantityInStock →
      ProductsList.compareProducts lower "quantityInStock" sortOrder p q = -1 ∧
      ProductsList.compareProducts lower "quantityInStock" sortOrder q p = -1) ∧
    (lower p.name = lower q.name →
      ProductsList.compareProducts lower "name" sortOrder p q = -1 ∧
      ProductsList.compareProducts lower "name" sortOrder q p = -1) ∧
    (t.id = u.id →
      PickingTasksList.compareTasks lower "id" sortOrder t u = -1 ∧
      PickingTasksList.compareTasks lower "id" sortOrder u t = -1) := by
  have hkeys : OrdersList.sortKey lower "createdAt" a = SortKey.num a.createdAt ∧
      OrdersList.sortKey lower "id" a = SortKey.num (a.id : Int) ∧
      OrdersList.sortKey lower "status" a = SortKey.str (utf16 (lower a.status)) ∧
      ProductsList.sortKey lower "quantityInStock" p = SortKey.num p.quantityInStock ∧
      ProductsList.sortKey lower "name" p = SortKey.str (utf16 (lower p.name)) ∧
      ProductsList.sortKey lower "sku" p = SortKey.str (utf16 (lower p.sku)) ∧
      ProductsList.sortKey lower "locationCode" p = SortKey.str (utf16 (lower p.locationCode)) ∧
      PickingTasksList.sortKey lower "id" t = SortKey.num (t.id : Int) ∧
      PickingTasksList.sortKey lower "status" t = SortKey.str (utf16 (lower t.status)) := by
    refine ⟨?_, ?_, ?_, ?_, ?_, ?_, ?_, ?_, ?_⟩
    · simp [OrdersList.sortKey]
    · simp [OrdersList.sortKey]
    · simp [OrdersList.sortKey, OrdersList.fieldText, textKey]
    · simp [ProductsList.sortKey]
    · simp [ProductsList.sortKey, ProductsList.fieldText, textKey]
    · simp [ProductsList.sortKey, ProductsList.fieldText, textKey]
    · simp [ProductsList.sortKey, ProductsList.fieldText, textKey]
    · simp [PickingTasksList.sortKey]
    · simp [PickingTasksList.sortKey, PickingTasksList.fieldText, textKey]
  refine ⟨compareValues_law sortOrder _ _ (ordersSortKey_sameKind lower sortBy a b),
    compareValues_law sortOrder _ _ (productsSortKey_sameKind lower sortBy p q),
    compareValues_law sortOrder _ _ (tasksSortKey_sameKind lower sortBy t u),
    hkeys, ?_, ?_, ?_, ?_, ?_, ?_⟩
  · intro hlt
    have hnot : ¬ b.createdAt < a.createdAt := by omega
    simp [OrdersList.compareOrders, OrdersList.sortKey, compareValues, SortKey.lt, hlt, hnot]
  · intro heq
    exact (compareValues_law sortOrder _ _ (ordersSortKey_sameKind lower "createdAt" a b)).2.2
      (by simp [OrdersList.sortKey, heq])
  · intro heq
    exact (compareValues_law sortOrder _ _ (ordersSortKey_sameKind lower "status" a b)).2.2
      (by simp [OrdersList.sortKey, OrdersList.fieldText, textKey, heq])
  · intro heq
    exact (compareValues_law sortOrder _ _
      (productsSortKey_sameKind lower "quantityInStock" p q)).2.2
      (by simp [ProductsList.sortKey, heq])
  · intro heq
    exact (compareValues_law sortOrder _ _ (productsSortKey_sameKind lower "name" p q)).2.2
      (by simp [ProductsList.sortKey, ProductsList.fieldText, textKey, heq])
  · intro heq
    exact (compareValues_law sortOrder _ _ (tasksSortKey_sameKind lower "id" t u)).2.2
      (by simp [PickingTasksList.sortKey, heq])

/-- Witness for C30: two orders whose statuses differ in case only (E with acute accent,
capital against small) tie under the lower-casing and get -1 both ways, ascending and
descending; so do two orders with the same creation date; different creation dates give
opposite signs. -/
theorem list_comparators_never_zero_witness :
    OrdersList.compareOrders sampleLower "status" "asc"
      ⟨1, "Éclair", 10, []⟩ ⟨2, "éclair", 20, []⟩ = -1 ∧
    OrdersList.compareOrders sampleLower "status" "asc"
      ⟨2, "éclair", 20, []⟩ ⟨1, "Éclair", 10, []⟩ = -1 ∧
    OrdersList.compareOrders sampleLower "createdAt" "desc"
      ⟨1, "NEW", 10, []⟩ ⟨2, "NEW", 10, []⟩ = -1 ∧
    OrdersList.compareOrders sampleLower "createdAt" "desc"
      ⟨2, "NEW", 10, []⟩ ⟨1, "NEW", 10, []⟩ = -1 ∧
    OrdersList.compareOrders sampleLower "createdAt" "asc"
      ⟨1, "NEW", 10, []⟩ ⟨2, "NEW", 20, []⟩ = -1 ∧
    OrdersList.compareOrders sampleLower "createdAt" "asc"
      ⟨2, "NEW", 20, []⟩ ⟨1, "NEW", 10, []⟩ = 1 :=
  have h1 := (list_comparators_never_zero sampleLower "status" "asc"
    ⟨1, "Éclair", 10, []⟩ ⟨2, "éclair", 20, []⟩ sampleAbc sampleAbc
    ⟨1, 1, "DONE", 0⟩ ⟨1, 1, "DONE", 0⟩).2.2.2.2.2.2.1 (by decide)
  have h2 := (list_comparators_never_zero sampleLower "createdAt" "desc"
    ⟨1, "NEW", 10, []⟩ ⟨2, "NEW", 10, []⟩ sampleAbc sampleAbc
    ⟨1, 1, "DONE", 0⟩ ⟨1, 1, "DONE", 0⟩).2.2.2.2.2.1 rfl
  have h3 := (list_comparators_never_zero sampleLower "createdAt" "asc"
    ⟨1, "NEW", 10, []⟩ ⟨2, "NEW", 20, []⟩ sampleAbc sampleAbc
    ⟨1, 1, "DONE", 0⟩ ⟨1, 1, "DONE", 0⟩).2.2.2.2.1 (by decide)
  ⟨h1.1, h1.2, h2.1, h2.2, h3.1, h3.2.1⟩

end Wms
